import Mathlib

set_option maxRecDepth 16384
set_option maxHeartbeats 4000000

/-!
Verification development for the Dodson lexicon splitter
(`scripts/split.py`): a batch tool that groups lexicon entries by the
normalized first letter of their Greek headword and writes one output
unit per group.

The shallow embedding below translates the pure core of the script:

* `normalizationMap` — the literal `normalization_map` table of
  `normalize_greek_letter`, in source order;
* `normalize_greek_letter` — table lookup with a case-fold fallback;
* `get_first_letter_key` — the key extractor;
* `parse_xml_to_json` — the grouping loop over already-parsed records
  (XML deserialization is I/O glue outside the model; the loop body that
  builds `entries_by_letter` is embedded faithfully, with Python's
  `defaultdict` + insertion-ordered `dict` modelled as an association
  list in key-insertion order);
* `write_order` — the `sorted(entries_by_letter.keys())` iteration
  order of `write_json_files`.

Python's built-in `str.lower` on a single character is modelled by
`pyLower` over the complete Unicode lowercase table `pyLowerTable`
(every code point whose lowercase differs from itself, including
U+0130, the one code point whose lowercase is two characters), so the
fallback path of the normalizer, and the truthiness and substring
membership tests of the key extractor, behave exactly as in Python at
every code point.
-/

namespace DodsonSplit

/-- The `normalization_map` dictionary of `normalize_greek_letter`
(`scripts/split.py` lines 19–64), as an association list in source
order.  The Python dict literal has no duplicate keys, so first-match
lookup coincides with dict lookup. -/
def normalizationMap : List (Char × Char) := [
  ('ἀ', 'α'), ('ἁ', 'α'), ('ά', 'α'), ('ὰ', 'α'), ('ᾶ', 'α'), ('ἄ', 'α'),
  ('ἂ', 'α'), ('ἆ', 'α'), ('ἅ', 'α'), ('ἃ', 'α'), ('ἇ', 'α'), ('ᾳ', 'α'),
  ('ᾴ', 'α'), ('ᾲ', 'α'), ('ᾷ', 'α'), ('ᾀ', 'α'), ('ᾁ', 'α'), ('ᾄ', 'α'),
  ('ᾂ', 'α'), ('ᾅ', 'α'), ('ᾃ', 'α'), ('ᾆ', 'α'), ('ᾇ', 'α'), ('Ἀ', 'α'),
  ('Ἁ', 'α'), ('Ά', 'α'), ('Ὰ', 'α'), ('Ἄ', 'α'), ('Ἂ', 'α'), ('Ἆ', 'α'),
  ('Ἅ', 'α'), ('Ἃ', 'α'), ('Ἇ', 'α'), ('ᾼ', 'α'), ('ᾈ', 'α'), ('ᾉ', 'α'),
  ('ᾌ', 'α'), ('ᾊ', 'α'), ('ᾍ', 'α'), ('ᾋ', 'α'), ('ᾎ', 'α'), ('ᾏ', 'α'),
  ('ἐ', 'ε'), ('ἑ', 'ε'), ('έ', 'ε'), ('ὲ', 'ε'), ('ἔ', 'ε'), ('ἒ', 'ε'),
  ('ἕ', 'ε'), ('ἓ', 'ε'), ('Ἐ', 'ε'), ('Ἑ', 'ε'), ('Έ', 'ε'), ('Ὲ', 'ε'),
  ('Ἔ', 'ε'), ('Ἒ', 'ε'), ('Ἕ', 'ε'), ('Ἓ', 'ε'), ('ἠ', 'η'), ('ἡ', 'η'),
  ('ή', 'η'), ('ὴ', 'η'), ('ῆ', 'η'), ('ἤ', 'η'), ('ἢ', 'η'), ('ἦ', 'η'),
  ('ἥ', 'η'), ('ἣ', 'η'), ('ἧ', 'η'), ('ῃ', 'η'), ('ῄ', 'η'), ('ῂ', 'η'),
  ('ῇ', 'η'), ('ᾐ', 'η'), ('ᾑ', 'η'), ('ᾔ', 'η'), ('ᾒ', 'η'), ('ᾕ', 'η'),
  ('ᾓ', 'η'), ('ᾖ', 'η'), ('ᾗ', 'η'), ('Ἠ', 'η'), ('Ἡ', 'η'), ('Ή', 'η'),
  ('Ὴ', 'η'), ('Ἤ', 'η'), ('Ἢ', 'η'), ('Ἦ', 'η'), ('Ἥ', 'η'), ('Ἣ', 'η'),
  ('Ἧ', 'η'), ('ῌ', 'η'), ('ᾘ', 'η'), ('ᾙ', 'η'), ('ᾜ', 'η'), ('ᾚ', 'η'),
  ('ᾝ', 'η'), ('ᾛ', 'η'), ('ᾞ', 'η'), ('ᾟ', 'η'), ('ἰ', 'ι'), ('ἱ', 'ι'),
  ('ί', 'ι'), ('ὶ', 'ι'), ('ῖ', 'ι'), ('ἴ', 'ι'), ('ἲ', 'ι'), ('ἶ', 'ι'),
  ('ἵ', 'ι'), ('ἳ', 'ι'), ('ἷ', 'ι'), ('ϊ', 'ι'), ('ΐ', 'ι'), ('ῒ', 'ι'),
  ('ῗ', 'ι'), ('Ἰ', 'ι'), ('Ἱ', 'ι'), ('Ί', 'ι'), ('Ὶ', 'ι'), ('Ἴ', 'ι'),
  ('Ἲ', 'ι'), ('Ἶ', 'ι'), ('Ἵ', 'ι'), ('Ἳ', 'ι'), ('Ἷ', 'ι'), ('Ϊ', 'ι'),
  ('ὀ', 'ο'), ('ὁ', 'ο'), ('ό', 'ο'), ('ὸ', 'ο'), ('ὄ', 'ο'), ('ὂ', 'ο'),
  ('ὅ', 'ο'), ('ὃ', 'ο'), ('Ὀ', 'ο'), ('Ὁ', 'ο'), ('Ό', 'ο'), ('Ὸ', 'ο'),
  ('Ὄ', 'ο'), ('Ὂ', 'ο'), ('Ὅ', 'ο'), ('Ὃ', 'ο'), ('ὐ', 'υ'), ('ὑ', 'υ'),
  ('ύ', 'υ'), ('ὺ', 'υ'), ('ῦ', 'υ'), ('ὔ', 'υ'), ('ὒ', 'υ'), ('ὖ', 'υ'),
  ('ὕ', 'υ'), ('ὓ', 'υ'), ('ὗ', 'υ'), ('ϋ', 'υ'), ('ΰ', 'υ'), ('ῢ', 'υ'),
  ('ῧ', 'υ'), ('Ὑ', 'υ'), ('Ύ', 'υ'), ('Ὺ', 'υ'), ('Ὕ', 'υ'), ('Ὓ', 'υ'),
  ('Ὗ', 'υ'), ('Ϋ', 'υ'), ('ὠ', 'ω'), ('ὡ', 'ω'), ('ώ', 'ω'), ('ὼ', 'ω'),
  ('ῶ', 'ω'), ('ὤ', 'ω'), ('ὢ', 'ω'), ('ὦ', 'ω'), ('ὥ', 'ω'), ('ὣ', 'ω'),
  ('ὧ', 'ω'), ('ῳ', 'ω'), ('ῴ', 'ω'), ('ῲ', 'ω'), ('ῷ', 'ω'), ('ᾠ', 'ω'),
  ('ᾡ', 'ω'), ('ᾤ', 'ω'), ('ᾢ', 'ω'), ('ᾥ', 'ω'), ('ᾣ', 'ω'), ('ᾦ', 'ω'),
  ('ᾧ', 'ω'), ('Ὠ', 'ω'), ('Ὡ', 'ω'), ('Ώ', 'ω'), ('Ὼ', 'ω'), ('Ὤ', 'ω'),
  ('Ὢ', 'ω'), ('Ὦ', 'ω'), ('Ὥ', 'ω'), ('Ὣ', 'ω'), ('Ὧ', 'ω'), ('ῼ', 'ω'),
  ('ᾨ', 'ω'), ('ᾩ', 'ω'), ('ᾬ', 'ω'), ('ᾪ', 'ω'), ('ᾭ', 'ω'), ('ᾫ', 'ω'),
  ('ᾮ', 'ω'), ('ᾯ', 'ω'), ('ῥ', 'ρ'), ('ῤ', 'ρ'), ('Ῥ', 'ρ'), ('Α', 'α'),
  ('Β', 'β'), ('Γ', 'γ'), ('Δ', 'δ'), ('Ε', 'ε'), ('Ζ', 'ζ'), ('Η', 'η'),
  ('Θ', 'θ'), ('Ι', 'ι'), ('Κ', 'κ'), ('Λ', 'λ'), ('Μ', 'μ'), ('Ν', 'ν'),
  ('Ξ', 'ξ'), ('Ο', 'ο'), ('Π', 'π'), ('Ρ', 'ρ'), ('Σ', 'σ'), ('Τ', 'τ'),
  ('Υ', 'υ'), ('Φ', 'φ'), ('Χ', 'χ'), ('Ψ', 'ψ'), ('Ω', 'ω'), ('ς', 'σ')]

/-- Slice 1 of the lowercase table (split only to keep
elaboration fast). -/
def pyLowerTablePart1 : List (Char × String) := [
  ('A', "a"), ('B', "b"), ('C', "c"), ('D', "d"), ('E', "e"),
  ('F', "f"), ('G', "g"), ('H', "h"), ('I', "i"), ('J', "j"),
  ('K', "k"), ('L', "l"), ('M', "m"), ('N', "n"), ('O', "o"),
  ('P', "p"), ('Q', "q"), ('R', "r"), ('S', "s"), ('T', "t"),
  ('U', "u"), ('V', "v"), ('W', "w"), ('X', "x"), ('Y', "y"),
  ('Z', "z"), ('À', "à"), ('Á', "á"), ('Â', "â"), ('Ã', "ã"),
  ('Ä', "ä"), ('Å', "å"), ('Æ', "æ"), ('Ç', "ç"), ('È', "è"),
  ('É', "é"), ('Ê', "ê"), ('Ë', "ë"), ('Ì', "ì"), ('Í', "í"),
  ('Î', "î"), ('Ï', "ï"), ('Ð', "ð"), ('Ñ', "ñ"), ('Ò', "ò"),
  ('Ó', "ó"), ('Ô', "ô"), ('Õ', "õ"), ('Ö', "ö"), ('Ø', "ø"),
  ('Ù', "ù"), ('Ú', "ú"), ('Û', "û"), ('Ü', "ü"), ('Ý', "ý"),
  ('Þ', "þ"), ('Ā', "ā"), ('Ă', "ă"), ('Ą', "ą"), ('Ć', "ć"),
  ('Ĉ', "ĉ"), ('Ċ', "ċ"), ('Č', "č"), ('Ď', "ď"), ('Đ', "đ"),
  ('Ē', "ē"), ('Ĕ', "ĕ"), ('Ė', "ė"), ('Ę', "ę"), ('Ě', "ě"),
  ('Ĝ', "ĝ"), ('Ğ', "ğ"), ('Ġ', "ġ"), ('Ģ', "ģ"), ('Ĥ', "ĥ"),
  ('Ħ', "ħ"), ('Ĩ', "ĩ"), ('Ī', "ī"), ('Ĭ', "ĭ"), ('Į', "į"),
  ('İ', "i̇"), ('Ĳ', "ĳ"), ('Ĵ', "ĵ"), ('Ķ', "ķ"), ('Ĺ', "ĺ"),
  ('Ļ', "ļ"), ('Ľ', "ľ"), ('Ŀ', "ŀ"), ('Ł', "ł"), ('Ń', "ń"),
  ('Ņ', "ņ"), ('Ň', "ň"), ('Ŋ', "ŋ"), ('Ō', "ō"), ('Ŏ', "ŏ"),
  ('Ő', "ő"), ('Œ', "œ"), ('Ŕ', "ŕ"), ('Ŗ', "ŗ"), ('Ř', "ř")]

/-- Slice 2 of the lowercase table (split only to keep
elaboration fast). -/
def pyLowerTablePart2 : List (Char × String) := [
  ('Ś', "ś"), ('Ŝ', "ŝ"), ('Ş', "ş"), ('Š', "š"), ('Ţ', "ţ"),
  ('Ť', "ť"), ('Ŧ', "ŧ"), ('Ũ', "ũ"), ('Ū', "ū"), ('Ŭ', "ŭ"),
  ('Ů', "ů"), ('Ű', "ű"), ('Ų', "ų"), ('Ŵ', "ŵ"), ('Ŷ', "ŷ"),
  ('Ÿ', "ÿ"), ('Ź', "ź"), ('Ż', "ż"), ('Ž', "ž"), ('Ɓ', "ɓ"),
  ('Ƃ', "ƃ"), ('Ƅ', "ƅ"), ('Ɔ', "ɔ"), ('Ƈ', "ƈ"), ('Ɖ', "ɖ"),
  ('Ɗ', "ɗ"), ('Ƌ', "ƌ"), ('Ǝ', "ǝ"), ('Ə', "ə"), ('Ɛ', "ɛ"),
  ('Ƒ', "ƒ"), ('Ɠ', "ɠ"), ('Ɣ', "ɣ"), ('Ɩ', "ɩ"), ('Ɨ', "ɨ"),
  ('Ƙ', "ƙ"), ('Ɯ', "ɯ"), ('Ɲ', "ɲ"), ('Ɵ', "ɵ"), ('Ơ', "ơ"),
  ('Ƣ', "ƣ"), ('Ƥ', "ƥ"), ('Ʀ', "ʀ"), ('Ƨ', "ƨ"), ('Ʃ', "ʃ"),
  ('Ƭ', "ƭ"), ('Ʈ', "ʈ"), ('Ư', "ư"), ('Ʊ', "ʊ"), ('Ʋ', "ʋ"),
  ('Ƴ', "ƴ"), ('Ƶ', "ƶ"), ('Ʒ', "ʒ"), ('Ƹ', "ƹ"), ('Ƽ', "ƽ"),
  ('Ǆ', "ǆ"), ('ǅ', "ǆ"), ('Ǉ', "ǉ"), ('ǈ', "ǉ"), ('Ǌ', "ǌ"),
  ('ǋ', "ǌ"), ('Ǎ', "ǎ"), ('Ǐ', "ǐ"), ('Ǒ', "ǒ"), ('Ǔ', "ǔ"),
  ('Ǖ', "ǖ"), ('Ǘ', "ǘ"), ('Ǚ', "ǚ"), ('Ǜ', "ǜ"), ('Ǟ', "ǟ"),
  ('Ǡ', "ǡ"), ('Ǣ', "ǣ"), ('Ǥ', "ǥ"), ('Ǧ', "ǧ"), ('Ǩ', "ǩ"),
  ('Ǫ', "ǫ"), ('Ǭ', "ǭ"), ('Ǯ', "ǯ"), ('Ǳ', "ǳ"), ('ǲ', "ǳ"),
  ('Ǵ', "ǵ"), ('Ƕ', "ƕ"), ('Ƿ', "ƿ"), ('Ǹ', "ǹ"), ('Ǻ', "ǻ"),
  ('Ǽ', "ǽ"), ('Ǿ', "ǿ"), ('Ȁ', "ȁ"), ('Ȃ', "ȃ"), ('Ȅ', "ȅ"),
  ('Ȇ', "ȇ"), ('Ȉ', "ȉ"), ('Ȋ', "ȋ"), ('Ȍ', "ȍ"), ('Ȏ', "ȏ"),
  ('Ȑ', "ȑ"), ('Ȓ', "ȓ"), ('Ȕ', "ȕ"), ('Ȗ', "ȗ"), ('Ș', "ș")]

/-- Slice 3 of the lowercase table (split only to keep
elaboration fast). -/
def pyLowerTablePart3 : List (Char × String) := [
  ('Ț', "ț"), ('Ȝ', "ȝ"), ('Ȟ', "ȟ"), ('Ƞ', "ƞ"), ('Ȣ', "ȣ"),
  ('Ȥ', "ȥ"), ('Ȧ', "ȧ"), ('Ȩ', "ȩ"), ('Ȫ', "ȫ"), ('Ȭ', "ȭ"),
  ('Ȯ', "ȯ"), ('Ȱ', "ȱ"), ('Ȳ', "ȳ"), ('Ⱥ', "ⱥ"), ('Ȼ', "ȼ"),
  ('Ƚ', "ƚ"), ('Ⱦ', "ⱦ"), ('Ɂ', "ɂ"), ('Ƀ', "ƀ"), ('Ʉ', "ʉ"),
  ('Ʌ', "ʌ"), ('Ɇ', "ɇ"), ('Ɉ', "ɉ"), ('Ɋ', "ɋ"), ('Ɍ', "ɍ"),
  ('Ɏ', "ɏ"), ('Ͱ', "ͱ"), ('Ͳ', "ͳ"), ('Ͷ', "ͷ"), ('Ϳ', "ϳ"),
  ('Ά', "ά"), ('Έ', "έ"), ('Ή', "ή"), ('Ί', "ί"), ('Ό', "ό"),
  ('Ύ', "ύ"), ('Ώ', "ώ"), ('Α', "α"), ('Β', "β"), ('Γ', "γ"),
  ('Δ', "δ"), ('Ε', "ε"), ('Ζ', "ζ"), ('Η', "η"), ('Θ', "θ"),
  ('Ι', "ι"), ('Κ', "κ"), ('Λ', "λ"), ('Μ', "μ"), ('Ν', "ν"),
  ('Ξ', "ξ"), ('Ο', "ο"), ('Π', "π"), ('Ρ', "ρ"), ('Σ', "σ"),
  ('Τ', "τ"), ('Υ', "υ"), ('Φ', "φ"), ('Χ', "χ"), ('Ψ', "ψ"),
  ('Ω', "ω"), ('Ϊ', "ϊ"), ('Ϋ', "ϋ"), ('Ϗ', "ϗ"), ('Ϙ', "ϙ"),
  ('Ϛ', "ϛ"), ('Ϝ', "ϝ"), ('Ϟ', "ϟ"), ('Ϡ', "ϡ"), ('Ϣ', "ϣ"),
  ('Ϥ', "ϥ"), ('Ϧ', "ϧ"), ('Ϩ', "ϩ"), ('Ϫ', "ϫ"), ('Ϭ', "ϭ"),
  ('Ϯ', "ϯ"), ('ϴ', "θ"), ('Ϸ', "ϸ"), ('Ϲ', "ϲ"), ('Ϻ', "ϻ"),
  ('Ͻ', "ͻ"), ('Ͼ', "ͼ"), ('Ͽ', "ͽ"), ('Ѐ', "ѐ"), ('Ё', "ё"),
  ('Ђ', "ђ"), ('Ѓ', "ѓ"), ('Є', "є"), ('Ѕ', "ѕ"), ('І', "і"),
  ('Ї', "ї"), ('Ј', "ј"), ('Љ', "љ"), ('Њ', "њ"), ('Ћ', "ћ"),
  ('Ќ', "ќ"), ('Ѝ', "ѝ"), ('Ў', "ў"), ('Џ', "џ"), ('А', "а")]

/-- Slice 4 of the lowercase table (split only to keep
elaboration fast). -/
def pyLowerTablePart4 : List (Char × String) := [
  ('Б', "б"), ('В', "в"), ('Г', "г"), ('Д', "д"), ('Е', "е"),
  ('Ж', "ж"), ('З', "з"), ('И', "и"), ('Й', "й"), ('К', "к"),
  ('Л', "л"), ('М', "м"), ('Н', "н"), ('О', "о"), ('П', "п"),
  ('Р', "р"), ('С', "с"), ('Т', "т"), ('У', "у"), ('Ф', "ф"),
  ('Х', "х"), ('Ц', "ц"), ('Ч', "ч"), ('Ш', "ш"), ('Щ', "щ"),
  ('Ъ', "ъ"), ('Ы', "ы"), ('Ь', "ь"), ('Э', "э"), ('Ю', "ю"),
  ('Я', "я"), ('Ѡ', "ѡ"), ('Ѣ', "ѣ"), ('Ѥ', "ѥ"), ('Ѧ', "ѧ"),
  ('Ѩ', "ѩ"), ('Ѫ', "ѫ"), ('Ѭ', "ѭ"), ('Ѯ', "ѯ"), ('Ѱ', "ѱ"),
  ('Ѳ', "ѳ"), ('Ѵ', "ѵ"), ('Ѷ', "ѷ"), ('Ѹ', "ѹ"), ('Ѻ', "ѻ"),
  ('Ѽ', "ѽ"), ('Ѿ', "ѿ"), ('Ҁ', "ҁ"), ('Ҋ', "ҋ"), ('Ҍ', "ҍ"),
  ('Ҏ', "ҏ"), ('Ґ', "ґ"), ('Ғ', "ғ"), ('Ҕ', "ҕ"), ('Җ', "җ"),
  ('Ҙ', "ҙ"), ('Қ', "қ"), ('Ҝ', "ҝ"), ('Ҟ', "ҟ"), ('Ҡ', "ҡ"),
  ('Ң', "ң"), ('Ҥ', "ҥ"), ('Ҧ', "ҧ"), ('Ҩ', "ҩ"), ('Ҫ', "ҫ"),
  ('Ҭ', "ҭ"), ('Ү', "ү"), ('Ұ', "ұ"), ('Ҳ', "ҳ"), ('Ҵ', "ҵ"),
  ('Ҷ', "ҷ"), ('Ҹ', "ҹ"), ('Һ', "һ"), ('Ҽ', "ҽ"), ('Ҿ', "ҿ"),
  ('Ӏ', "ӏ"), ('Ӂ', "ӂ"), ('Ӄ', "ӄ"), ('Ӆ', "ӆ"), ('Ӈ', "ӈ"),
  ('Ӊ', "ӊ"), ('Ӌ', "ӌ"), ('Ӎ', "ӎ"), ('Ӑ', "ӑ"), ('Ӓ', "ӓ"),
  ('Ӕ', "ӕ"), ('Ӗ', "ӗ"), ('Ә', "ә"), ('Ӛ', "ӛ"), ('Ӝ', "ӝ"),
  ('Ӟ', "ӟ"), ('Ӡ', "ӡ"), ('Ӣ', "ӣ"), ('Ӥ', "ӥ"), ('Ӧ', "ӧ"),
  ('Ө', "ө"), ('Ӫ', "ӫ"), ('Ӭ', "ӭ"), ('Ӯ', "ӯ"), ('Ӱ', "ӱ")]

/-- Slice 5 of the lowercase table (split only to keep
elaboration fast). -/
def pyLowerTablePart5 : List (Char × String) := [
  ('Ӳ', "ӳ"), ('Ӵ', "ӵ"), ('Ӷ', "ӷ"), ('Ӹ', "ӹ"), ('Ӻ', "ӻ"),
  ('Ӽ', "ӽ"), ('Ӿ', "ӿ"), ('Ԁ', "ԁ"), ('Ԃ', "ԃ"), ('Ԅ', "ԅ"),
  ('Ԇ', "ԇ"), ('Ԉ', "ԉ"), ('Ԋ', "ԋ"), ('Ԍ', "ԍ"), ('Ԏ', "ԏ"),
  ('Ԑ', "ԑ"), ('Ԓ', "ԓ"), ('Ԕ', "ԕ"), ('Ԗ', "ԗ"), ('Ԙ', "ԙ"),
  ('Ԛ', "ԛ"), ('Ԝ', "ԝ"), ('Ԟ', "ԟ"), ('Ԡ', "ԡ"), ('Ԣ', "ԣ"),
  ('Ԥ', "ԥ"), ('Ԧ', "ԧ"), ('Ԩ', "ԩ"), ('Ԫ', "ԫ"), ('Ԭ', "ԭ"),
  ('Ԯ', "ԯ"), ('Ա', "ա"), ('Բ', "բ"), ('Գ', "գ"), ('Դ', "դ"),
  ('Ե', "ե"), ('Զ', "զ"), ('Է', "է"), ('Ը', "ը"), ('Թ', "թ"),
  ('Ժ', "ժ"), ('Ի', "ի"), ('Լ', "լ"), ('Խ', "խ"), ('Ծ', "ծ"),
  ('Կ', "կ"), ('Հ', "հ"), ('Ձ', "ձ"), ('Ղ', "ղ"), ('Ճ', "ճ"),
  ('Մ', "մ"), ('Յ', "յ"), ('Ն', "ն"), ('Շ', "շ"), ('Ո', "ո"),
  ('Չ', "չ"), ('Պ', "պ"), ('Ջ', "ջ"), ('Ռ', "ռ"), ('Ս', "ս"),
  ('Վ', "վ"), ('Տ', "տ"), ('Ր', "ր"), ('Ց', "ց"), ('Ւ', "ւ"),
  ('Փ', "փ"), ('Ք', "ք"), ('Օ', "օ"), ('Ֆ', "ֆ"), ('Ⴀ', "ⴀ"),
  ('Ⴁ', "ⴁ"), ('Ⴂ', "ⴂ"), ('Ⴃ', "ⴃ"), ('Ⴄ', "ⴄ"), ('Ⴅ', "ⴅ"),
  ('Ⴆ', "ⴆ"), ('Ⴇ', "ⴇ"), ('Ⴈ', "ⴈ"), ('Ⴉ', "ⴉ"), ('Ⴊ', "ⴊ"),
  ('Ⴋ', "ⴋ"), ('Ⴌ', "ⴌ"), ('Ⴍ', "ⴍ"), ('Ⴎ', "ⴎ"), ('Ⴏ', "ⴏ"),
  ('Ⴐ', "ⴐ"), ('Ⴑ', "ⴑ"), ('Ⴒ', "ⴒ"), ('Ⴓ', "ⴓ"), ('Ⴔ', "ⴔ"),
  ('Ⴕ', "ⴕ"), ('Ⴖ', "ⴖ"), ('Ⴗ', "ⴗ"), ('Ⴘ', "ⴘ"), ('Ⴙ', "ⴙ"),
  ('Ⴚ', "ⴚ"), ('Ⴛ', "ⴛ"), ('Ⴜ', "ⴜ"), ('Ⴝ', "ⴝ"), ('Ⴞ', "ⴞ")]

/-- Slice 6 of the lowercase table (split only to keep
elaboration fast). -/
def pyLowerTablePart6 : List (Char × String) := [
  ('Ⴟ', "ⴟ"), ('Ⴠ', "ⴠ"), ('Ⴡ', "ⴡ"), ('Ⴢ', "ⴢ"), ('Ⴣ', "ⴣ"),
  ('Ⴤ', "ⴤ"), ('Ⴥ', "ⴥ"), ('Ⴧ', "ⴧ"), ('Ⴭ', "ⴭ"), ('Ꭰ', "ꭰ"),
  ('Ꭱ', "ꭱ"), ('Ꭲ', "ꭲ"), ('Ꭳ', "ꭳ"), ('Ꭴ', "ꭴ"), ('Ꭵ', "ꭵ"),
  ('Ꭶ', "ꭶ"), ('Ꭷ', "ꭷ"), ('Ꭸ', "ꭸ"), ('Ꭹ', "ꭹ"), ('Ꭺ', "ꭺ"),
  ('Ꭻ', "ꭻ"), ('Ꭼ', "ꭼ"), ('Ꭽ', "ꭽ"), ('Ꭾ', "ꭾ"), ('Ꭿ', "ꭿ"),
  ('Ꮀ', "ꮀ"), ('Ꮁ', "ꮁ"), ('Ꮂ', "ꮂ"), ('Ꮃ', "ꮃ"), ('Ꮄ', "ꮄ"),
  ('Ꮅ', "ꮅ"), ('Ꮆ', "ꮆ"), ('Ꮇ', "ꮇ"), ('Ꮈ', "ꮈ"), ('Ꮉ', "ꮉ"),
  ('Ꮊ', "ꮊ"), ('Ꮋ', "ꮋ"), ('Ꮌ', "ꮌ"), ('Ꮍ', "ꮍ"), ('Ꮎ', "ꮎ"),
  ('Ꮏ', "ꮏ"), ('Ꮐ', "ꮐ"), ('Ꮑ', "ꮑ"), ('Ꮒ', "ꮒ"), ('Ꮓ', "ꮓ"),
  ('Ꮔ', "ꮔ"), ('Ꮕ', "ꮕ"), ('Ꮖ', "ꮖ"), ('Ꮗ', "ꮗ"), ('Ꮘ', "ꮘ"),
  ('Ꮙ', "ꮙ"), ('Ꮚ', "ꮚ"), ('Ꮛ', "ꮛ"), ('Ꮜ', "ꮜ"), ('Ꮝ', "ꮝ"),
  ('Ꮞ', "ꮞ"), ('Ꮟ', "ꮟ"), ('Ꮠ', "ꮠ"), ('Ꮡ', "ꮡ"), ('Ꮢ', "ꮢ"),
  ('Ꮣ', "ꮣ"), ('Ꮤ', "ꮤ"), ('Ꮥ', "ꮥ"), ('Ꮦ', "ꮦ"), ('Ꮧ', "ꮧ"),
  ('Ꮨ', "ꮨ"), ('Ꮩ', "ꮩ"), ('Ꮪ', "ꮪ"), ('Ꮫ', "ꮫ"), ('Ꮬ', "ꮬ"),
  ('Ꮭ', "ꮭ"), ('Ꮮ', "ꮮ"), ('Ꮯ', "ꮯ"), ('Ꮰ', "ꮰ"), ('Ꮱ', "ꮱ"),
  ('Ꮲ', "ꮲ"), ('Ꮳ', "ꮳ"), ('Ꮴ', "ꮴ"), ('Ꮵ', "ꮵ"), ('Ꮶ', "ꮶ"),
  ('Ꮷ', "ꮷ"), ('Ꮸ', "ꮸ"), ('Ꮹ', "ꮹ"), ('Ꮺ', "ꮺ"), ('Ꮻ', "ꮻ"),
  ('Ꮼ', "ꮼ"), ('Ꮽ', "ꮽ"), ('Ꮾ', "ꮾ"), ('Ꮿ', "ꮿ"), ('Ᏸ', "ᏸ"),
  ('Ᏹ', "ᏹ"), ('Ᏺ', "ᏺ"), ('Ᏻ', "ᏻ"), ('Ᏼ', "ᏼ"), ('Ᏽ', "ᏽ"),
  ('Ა', "ა"), ('Ბ', "ბ"), ('Გ', "გ"), ('Დ', "დ"), ('Ე', "ე")]

/-- Slice 7 of the lowercase table (split only to keep
elaboration fast). -/
def pyLowerTablePart7 : List (Char × String) := [
  ('Ვ', "ვ"), ('Ზ', "ზ"), ('Თ', "თ"), ('Ი', "ი"), ('Კ', "კ"),
  ('Ლ', "ლ"), ('Მ', "მ"), ('Ნ', "ნ"), ('Ო', "ო"), ('Პ', "პ"),
  ('Ჟ', "ჟ"), ('Რ', "რ"), ('Ს', "ს"), ('Ტ', "ტ"), ('Უ', "უ"),
  ('Ფ', "ფ"), ('Ქ', "ქ"), ('Ღ', "ღ"), ('Ყ', "ყ"), ('Შ', "შ"),
  ('Ჩ', "ჩ"), ('Ც', "ც"), ('Ძ', "ძ"), ('Წ', "წ"), ('Ჭ', "ჭ"),
  ('Ხ', "ხ"), ('Ჯ', "ჯ"), ('Ჰ', "ჰ"), ('Ჱ', "ჱ"), ('Ჲ', "ჲ"),
  ('Ჳ', "ჳ"), ('Ჴ', "ჴ"), ('Ჵ', "ჵ"), ('Ჶ', "ჶ"), ('Ჷ', "ჷ"),
  ('Ჸ', "ჸ"), ('Ჹ', "ჹ"), ('Ჺ', "ჺ"), ('Ჽ', "ჽ"), ('Ჾ', "ჾ"),
  ('Ჿ', "ჿ"), ('Ḁ', "ḁ"), ('Ḃ', "ḃ"), ('Ḅ', "ḅ"), ('Ḇ', "ḇ"),
  ('Ḉ', "ḉ"), ('Ḋ', "ḋ"), ('Ḍ', "ḍ"), ('Ḏ', "ḏ"), ('Ḑ', "ḑ"),
  ('Ḓ', "ḓ"), ('Ḕ', "ḕ"), ('Ḗ', "ḗ"), ('Ḙ', "ḙ"), ('Ḛ', "ḛ"),
  ('Ḝ', "ḝ"), ('Ḟ', "ḟ"), ('Ḡ', "ḡ"), ('Ḣ', "ḣ"), ('Ḥ', "ḥ"),
  ('Ḧ', "ḧ"), ('Ḩ', "ḩ"), ('Ḫ', "ḫ"), ('Ḭ', "ḭ"), ('Ḯ', "ḯ"),
  ('Ḱ', "ḱ"), ('Ḳ', "ḳ"), ('Ḵ', "ḵ"), ('Ḷ', "ḷ"), ('Ḹ', "ḹ"),
  ('Ḻ', "ḻ"), ('Ḽ', "ḽ"), ('Ḿ', "ḿ"), ('Ṁ', "ṁ"), ('Ṃ', "ṃ"),
  ('Ṅ', "ṅ"), ('Ṇ', "ṇ"), ('Ṉ', "ṉ"), ('Ṋ', "ṋ"), ('Ṍ', "ṍ"),
  ('Ṏ', "ṏ"), ('Ṑ', "ṑ"), ('Ṓ', "ṓ"), ('Ṕ', "ṕ"), ('Ṗ', "ṗ"),
  ('Ṙ', "ṙ"), ('Ṛ', "ṛ"), ('Ṝ', "ṝ"), ('Ṟ', "ṟ"), ('Ṡ', "ṡ"),
  ('Ṣ', "ṣ"), ('Ṥ', "ṥ"), ('Ṧ', "ṧ"), ('Ṩ', "ṩ"), ('Ṫ', "ṫ"),
  ('Ṭ', "ṭ"), ('Ṯ', "ṯ"), ('Ṱ', "ṱ"), ('Ṳ', "ṳ"), ('Ṵ', "ṵ")]

/-- Slice 8 of the lowercase table (split only to keep
elaboration fast). -/
def pyLowerTablePart8 : List (Char × String) := [
  ('Ṷ', "ṷ"), ('Ṹ', "ṹ"), ('Ṻ', "ṻ"), ('Ṽ', "ṽ"), ('Ṿ', "ṿ"),
  ('Ẁ', "ẁ"), ('Ẃ', "ẃ"), ('Ẅ', "ẅ"), ('Ẇ', "ẇ"), ('Ẉ', "ẉ"),
  ('Ẋ', "ẋ"), ('Ẍ', "ẍ"), ('Ẏ', "ẏ"), ('Ẑ', "ẑ"), ('Ẓ', "ẓ"),
  ('Ẕ', "ẕ"), ('ẞ', "ß"), ('Ạ', "ạ"), ('Ả', "ả"), ('Ấ', "ấ"),
  ('Ầ', "ầ"), ('Ẩ', "ẩ"), ('Ẫ', "ẫ"), ('Ậ', "ậ"), ('Ắ', "ắ"),
  ('Ằ', "ằ"), ('Ẳ', "ẳ"), ('Ẵ', "ẵ"), ('Ặ', "ặ"), ('Ẹ', "ẹ"),
  ('Ẻ', "ẻ"), ('Ẽ', "ẽ"), ('Ế', "ế"), ('Ề', "ề"), ('Ể', "ể"),
  ('Ễ', "ễ"), ('Ệ', "ệ"), ('Ỉ', "ỉ"), ('Ị', "ị"), ('Ọ', "ọ"),
  ('Ỏ', "ỏ"), ('Ố', "ố"), ('Ồ', "ồ"), ('Ổ', "ổ"), ('Ỗ', "ỗ"),
  ('Ộ', "ộ"), ('Ớ', "ớ"), ('Ờ', "ờ"), ('Ở', "ở"), ('Ỡ', "ỡ"),
  ('Ợ', "ợ"), ('Ụ', "ụ"), ('Ủ', "ủ"), ('Ứ', "ứ"), ('Ừ', "ừ"),
  ('Ử', "ử"), ('Ữ', "ữ"), ('Ự', "ự"), ('Ỳ', "ỳ"), ('Ỵ', "ỵ"),
  ('Ỷ', "ỷ"), ('Ỹ', "ỹ"), ('Ỻ', "ỻ"), ('Ỽ', "ỽ"), ('Ỿ', "ỿ"),
  ('Ἀ', "ἀ"), ('Ἁ', "ἁ"), ('Ἂ', "ἂ"), ('Ἃ', "ἃ"), ('Ἄ', "ἄ"),
  ('Ἅ', "ἅ"), ('Ἆ', "ἆ"), ('Ἇ', "ἇ"), ('Ἐ', "ἐ"), ('Ἑ', "ἑ"),
  ('Ἒ', "ἒ"), ('Ἓ', "ἓ"), ('Ἔ', "ἔ"), ('Ἕ', "ἕ"), ('Ἠ', "ἠ"),
  ('Ἡ', "ἡ"), ('Ἢ', "ἢ"), ('Ἣ', "ἣ"), ('Ἤ', "ἤ"), ('Ἥ', "ἥ"),
  ('Ἦ', "ἦ"), ('Ἧ', "ἧ"), ('Ἰ', "ἰ"), ('Ἱ', "ἱ"), ('Ἲ', "ἲ"),
  ('Ἳ', "ἳ"), ('Ἴ', "ἴ"), ('Ἵ', "ἵ"), ('Ἶ', "ἶ"), ('Ἷ', "ἷ"),
  ('Ὀ', "ὀ"), ('Ὁ', "ὁ"), ('Ὂ', "ὂ"), ('Ὃ', "ὃ"), ('Ὄ', "ὄ")]

/-- Slice 9 of the lowercase table (split only to keep
elaboration fast). -/
def pyLowerTablePart9 : List (Char × String) := [
  ('Ὅ', "ὅ"), ('Ὑ', "ὑ"), ('Ὓ', "ὓ"), ('Ὕ', "ὕ"), ('Ὗ', "ὗ"),
  ('Ὠ', "ὠ"), ('Ὡ', "ὡ"), ('Ὢ', "ὢ"), ('Ὣ', "ὣ"), ('Ὤ', "ὤ"),
  ('Ὥ', "ὥ"), ('Ὦ', "ὦ"), ('Ὧ', "ὧ"), ('ᾈ', "ᾀ"), ('ᾉ', "ᾁ"),
  ('ᾊ', "ᾂ"), ('ᾋ', "ᾃ"), ('ᾌ', "ᾄ"), ('ᾍ', "ᾅ"), ('ᾎ', "ᾆ"),
  ('ᾏ', "ᾇ"), ('ᾘ', "ᾐ"), ('ᾙ', "ᾑ"), ('ᾚ', "ᾒ"), ('ᾛ', "ᾓ"),
  ('ᾜ', "ᾔ"), ('ᾝ', "ᾕ"), ('ᾞ', "ᾖ"), ('ᾟ', "ᾗ"), ('ᾨ', "ᾠ"),
  ('ᾩ', "ᾡ"), ('ᾪ', "ᾢ"), ('ᾫ', "ᾣ"), ('ᾬ', "ᾤ"), ('ᾭ', "ᾥ"),
  ('ᾮ', "ᾦ"), ('ᾯ', "ᾧ"), ('Ᾰ', "ᾰ"), ('Ᾱ', "ᾱ"), ('Ὰ', "ὰ"),
  ('Ά', "ά"), ('ᾼ', "ᾳ"), ('Ὲ', "ὲ"), ('Έ', "έ"), ('Ὴ', "ὴ"),
  ('Ή', "ή"), ('ῌ', "ῃ"), ('Ῐ', "ῐ"), ('Ῑ', "ῑ"), ('Ὶ', "ὶ"),
  ('Ί', "ί"), ('Ῠ', "ῠ"), ('Ῡ', "ῡ"), ('Ὺ', "ὺ"), ('Ύ', "ύ"),
  ('Ῥ', "ῥ"), ('Ὸ', "ὸ"), ('Ό', "ό"), ('Ὼ', "ὼ"), ('Ώ', "ώ"),
  ('ῼ', "ῳ"), ('Ω', "ω"), ('K', "k"), ('Å', "å"), ('Ⅎ', "ⅎ"),
  ('Ⅰ', "ⅰ"), ('Ⅱ', "ⅱ"), ('Ⅲ', "ⅲ"), ('Ⅳ', "ⅳ"), ('Ⅴ', "ⅴ"),
  ('Ⅵ', "ⅵ"), ('Ⅶ', "ⅶ"), ('Ⅷ', "ⅷ"), ('Ⅸ', "ⅸ"), ('Ⅹ', "ⅹ"),
  ('Ⅺ', "ⅺ"), ('Ⅻ', "ⅻ"), ('Ⅼ', "ⅼ"), ('Ⅽ', "ⅽ"), ('Ⅾ', "ⅾ"),
  ('Ⅿ', "ⅿ"), ('Ↄ', "ↄ"), ('Ⓐ', "ⓐ"), ('Ⓑ', "ⓑ"), ('Ⓒ', "ⓒ"),
  ('Ⓓ', "ⓓ"), ('Ⓔ', "ⓔ"), ('Ⓕ', "ⓕ"), ('Ⓖ', "ⓖ"), ('Ⓗ', "ⓗ"),
  ('Ⓘ', "ⓘ"), ('Ⓙ', "ⓙ"), ('Ⓚ', "ⓚ"), ('Ⓛ', "ⓛ"), ('Ⓜ', "ⓜ"),
  ('Ⓝ', "ⓝ"), ('Ⓞ', "ⓞ"), ('Ⓟ', "ⓟ"), ('Ⓠ', "ⓠ"), ('Ⓡ', "ⓡ")]

/-- Slice 10 of the lowercase table (split only to keep
elaboration fast). -/
def pyLowerTablePart10 : List (Char × String) := [
  ('Ⓢ', "ⓢ"), ('Ⓣ', "ⓣ"), ('Ⓤ', "ⓤ"), ('Ⓥ', "ⓥ"), ('Ⓦ', "ⓦ"),
  ('Ⓧ', "ⓧ"), ('Ⓨ', "ⓨ"), ('Ⓩ', "ⓩ"), ('Ⰰ', "ⰰ"), ('Ⰱ', "ⰱ"),
  ('Ⰲ', "ⰲ"), ('Ⰳ', "ⰳ"), ('Ⰴ', "ⰴ"), ('Ⰵ', "ⰵ"), ('Ⰶ', "ⰶ"),
  ('Ⰷ', "ⰷ"), ('Ⰸ', "ⰸ"), ('Ⰹ', "ⰹ"), ('Ⰺ', "ⰺ"), ('Ⰻ', "ⰻ"),
  ('Ⰼ', "ⰼ"), ('Ⰽ', "ⰽ"), ('Ⰾ', "ⰾ"), ('Ⰿ', "ⰿ"), ('Ⱀ', "ⱀ"),
  ('Ⱁ', "ⱁ"), ('Ⱂ', "ⱂ"), ('Ⱃ', "ⱃ"), ('Ⱄ', "ⱄ"), ('Ⱅ', "ⱅ"),
  ('Ⱆ', "ⱆ"), ('Ⱇ', "ⱇ"), ('Ⱈ', "ⱈ"), ('Ⱉ', "ⱉ"), ('Ⱊ', "ⱊ"),
  ('Ⱋ', "ⱋ"), ('Ⱌ', "ⱌ"), ('Ⱍ', "ⱍ"), ('Ⱎ', "ⱎ"), ('Ⱏ', "ⱏ"),
  ('Ⱐ', "ⱐ"), ('Ⱑ', "ⱑ"), ('Ⱒ', "ⱒ"), ('Ⱓ', "ⱓ"), ('Ⱔ', "ⱔ"),
  ('Ⱕ', "ⱕ"), ('Ⱖ', "ⱖ"), ('Ⱗ', "ⱗ"), ('Ⱘ', "ⱘ"), ('Ⱙ', "ⱙ"),
  ('Ⱚ', "ⱚ"), ('Ⱛ', "ⱛ"), ('Ⱜ', "ⱜ"), ('Ⱝ', "ⱝ"), ('Ⱞ', "ⱞ"),
  ('Ⱟ', "ⱟ"), ('Ⱡ', "ⱡ"), ('Ɫ', "ɫ"), ('Ᵽ', "ᵽ"), ('Ɽ', "ɽ"),
  ('Ⱨ', "ⱨ"), ('Ⱪ', "ⱪ"), ('Ⱬ', "ⱬ"), ('Ɑ', "ɑ"), ('Ɱ', "ɱ"),
  ('Ɐ', "ɐ"), ('Ɒ', "ɒ"), ('Ⱳ', "ⱳ"), ('Ⱶ', "ⱶ"), ('Ȿ', "ȿ"),
  ('Ɀ', "ɀ"), ('Ⲁ', "ⲁ"), ('Ⲃ', "ⲃ"), ('Ⲅ', "ⲅ"), ('Ⲇ', "ⲇ"),
  ('Ⲉ', "ⲉ"), ('Ⲋ', "ⲋ"), ('Ⲍ', "ⲍ"), ('Ⲏ', "ⲏ"), ('Ⲑ', "ⲑ"),
  ('Ⲓ', "ⲓ"), ('Ⲕ', "ⲕ"), ('Ⲗ', "ⲗ"), ('Ⲙ', "ⲙ"), ('Ⲛ', "ⲛ"),
  ('Ⲝ', "ⲝ"), ('Ⲟ', "ⲟ"), ('Ⲡ', "ⲡ"), ('Ⲣ', "ⲣ"), ('Ⲥ', "ⲥ"),
  ('Ⲧ', "ⲧ"), ('Ⲩ', "ⲩ"), ('Ⲫ', "ⲫ"), ('Ⲭ', "ⲭ"), ('Ⲯ', "ⲯ"),
  ('Ⲱ', "ⲱ"), ('Ⲳ', "ⲳ"), ('Ⲵ', "ⲵ"), ('Ⲷ', "ⲷ"), ('Ⲹ', "ⲹ")]

/-- Slice 11 of the lowercase table (split only to keep
elaboration fast). -/
def pyLowerTablePart11 : List (Char × String) := [
  ('Ⲻ', "ⲻ"), ('Ⲽ', "ⲽ"), ('Ⲿ', "ⲿ"), ('Ⳁ', "ⳁ"), ('Ⳃ', "ⳃ"),
  ('Ⳅ', "ⳅ"), ('Ⳇ', "ⳇ"), ('Ⳉ', "ⳉ"), ('Ⳋ', "ⳋ"), ('Ⳍ', "ⳍ"),
  ('Ⳏ', "ⳏ"), ('Ⳑ', "ⳑ"), ('Ⳓ', "ⳓ"), ('Ⳕ', "ⳕ"), ('Ⳗ', "ⳗ"),
  ('Ⳙ', "ⳙ"), ('Ⳛ', "ⳛ"), ('Ⳝ', "ⳝ"), ('Ⳟ', "ⳟ"), ('Ⳡ', "ⳡ"),
  ('Ⳣ', "ⳣ"), ('Ⳬ', "ⳬ"), ('Ⳮ', "ⳮ"), ('Ⳳ', "ⳳ"), ('Ꙁ', "ꙁ"),
  ('Ꙃ', "ꙃ"), ('Ꙅ', "ꙅ"), ('Ꙇ', "ꙇ"), ('Ꙉ', "ꙉ"), ('Ꙋ', "ꙋ"),
  ('Ꙍ', "ꙍ"), ('Ꙏ', "ꙏ"), ('Ꙑ', "ꙑ"), ('Ꙓ', "ꙓ"), ('Ꙕ', "ꙕ"),
  ('Ꙗ', "ꙗ"), ('Ꙙ', "ꙙ"), ('Ꙛ', "ꙛ"), ('Ꙝ', "ꙝ"), ('Ꙟ', "ꙟ"),
  ('Ꙡ', "ꙡ"), ('Ꙣ', "ꙣ"), ('Ꙥ', "ꙥ"), ('Ꙧ', "ꙧ"), ('Ꙩ', "ꙩ"),
  ('Ꙫ', "ꙫ"), ('Ꙭ', "ꙭ"), ('Ꚁ', "ꚁ"), ('Ꚃ', "ꚃ"), ('Ꚅ', "ꚅ"),
  ('Ꚇ', "ꚇ"), ('Ꚉ', "ꚉ"), ('Ꚋ', "ꚋ"), ('Ꚍ', "ꚍ"), ('Ꚏ', "ꚏ"),
  ('Ꚑ', "ꚑ"), ('Ꚓ', "ꚓ"), ('Ꚕ', "ꚕ"), ('Ꚗ', "ꚗ"), ('Ꚙ', "ꚙ"),
  ('Ꚛ', "ꚛ"), ('Ꜣ', "ꜣ"), ('Ꜥ', "ꜥ"), ('Ꜧ', "ꜧ"), ('Ꜩ', "ꜩ"),
  ('Ꜫ', "ꜫ"), ('Ꜭ', "ꜭ"), ('Ꜯ', "ꜯ"), ('Ꜳ', "ꜳ"), ('Ꜵ', "ꜵ"),
  ('Ꜷ', "ꜷ"), ('Ꜹ', "ꜹ"), ('Ꜻ', "ꜻ"), ('Ꜽ', "ꜽ"), ('Ꜿ', "ꜿ"),
  ('Ꝁ', "ꝁ"), ('Ꝃ', "ꝃ"), ('Ꝅ', "ꝅ"), ('Ꝇ', "ꝇ"), ('Ꝉ', "ꝉ"),
  ('Ꝋ', "ꝋ"), ('Ꝍ', "ꝍ"), ('Ꝏ', "ꝏ"), ('Ꝑ', "ꝑ"), ('Ꝓ', "ꝓ"),
  ('Ꝕ', "ꝕ"), ('Ꝗ', "ꝗ"), ('Ꝙ', "ꝙ"), ('Ꝛ', "ꝛ"), ('Ꝝ', "ꝝ"),
  ('Ꝟ', "ꝟ"), ('Ꝡ', "ꝡ"), ('Ꝣ', "ꝣ"), ('Ꝥ', "ꝥ"), ('Ꝧ', "ꝧ"),
  ('Ꝩ', "ꝩ"), ('Ꝫ', "ꝫ"), ('Ꝭ', "ꝭ"), ('Ꝯ', "ꝯ"), ('Ꝺ', "ꝺ")]

/-- Slice 12 of the lowercase table (split only to keep
elaboration fast). -/
def pyLowerTablePart12 : List (Char × String) := [
  ('Ꝼ', "ꝼ"), ('Ᵹ', "ᵹ"), ('Ꝿ', "ꝿ"), ('Ꞁ', "ꞁ"), ('Ꞃ', "ꞃ"),
  ('Ꞅ', "ꞅ"), ('Ꞇ', "ꞇ"), ('Ꞌ', "ꞌ"), ('Ɥ', "ɥ"), ('Ꞑ', "ꞑ"),
  ('Ꞓ', "ꞓ"), ('Ꞗ', "ꞗ"), ('Ꞙ', "ꞙ"), ('Ꞛ', "ꞛ"), ('Ꞝ', "ꞝ"),
  ('Ꞟ', "ꞟ"), ('Ꞡ', "ꞡ"), ('Ꞣ', "ꞣ"), ('Ꞥ', "ꞥ"), ('Ꞧ', "ꞧ"),
  ('Ꞩ', "ꞩ"), ('Ɦ', "ɦ"), ('Ɜ', "ɜ"), ('Ɡ', "ɡ"), ('Ɬ', "ɬ"),
  ('Ɪ', "ɪ"), ('Ʞ', "ʞ"), ('Ʇ', "ʇ"), ('Ʝ', "ʝ"), ('Ꭓ', "ꭓ"),
  ('Ꞵ', "ꞵ"), ('Ꞷ', "ꞷ"), ('Ꞹ', "ꞹ"), ('Ꞻ', "ꞻ"), ('Ꞽ', "ꞽ"),
  ('Ꞿ', "ꞿ"), ('Ꟁ', "ꟁ"), ('Ꟃ', "ꟃ"), ('Ꞔ', "ꞔ"), ('Ʂ', "ʂ"),
  ('Ᶎ', "ᶎ"), ('Ꟈ', "ꟈ"), ('Ꟊ', "ꟊ"), ('Ꟑ', "ꟑ"), ('Ꟗ', "ꟗ"),
  ('Ꟙ', "ꟙ"), ('Ꟶ', "ꟶ"), ('Ａ', "ａ"), ('Ｂ', "ｂ"), ('Ｃ', "ｃ"),
  ('Ｄ', "ｄ"), ('Ｅ', "ｅ"), ('Ｆ', "ｆ"), ('Ｇ', "ｇ"), ('Ｈ', "ｈ"),
  ('Ｉ', "ｉ"), ('Ｊ', "ｊ"), ('Ｋ', "ｋ"), ('Ｌ', "ｌ"), ('Ｍ', "ｍ"),
  ('Ｎ', "ｎ"), ('Ｏ', "ｏ"), ('Ｐ', "ｐ"), ('Ｑ', "ｑ"), ('Ｒ', "ｒ"),
  ('Ｓ', "ｓ"), ('Ｔ', "ｔ"), ('Ｕ', "ｕ"), ('Ｖ', "ｖ"), ('Ｗ', "ｗ"),
  ('Ｘ', "ｘ"), ('Ｙ', "ｙ"), ('Ｚ', "ｚ"), ('𐐀', "𐐨"), ('𐐁', "𐐩"),
  ('𐐂', "𐐪"), ('𐐃', "𐐫"), ('𐐄', "𐐬"), ('𐐅', "𐐭"), ('𐐆', "𐐮"),
  ('𐐇', "𐐯"), ('𐐈', "𐐰"), ('𐐉', "𐐱"), ('𐐊', "𐐲"), ('𐐋', "𐐳"),
  ('𐐌', "𐐴"), ('𐐍', "𐐵"), ('𐐎', "𐐶"), ('𐐏', "𐐷"), ('𐐐', "𐐸"),
  ('𐐑', "𐐹"), ('𐐒', "𐐺"), ('𐐓', "𐐻"), ('𐐔', "𐐼"), ('𐐕', "𐐽"),
  ('𐐖', "𐐾"), ('𐐗', "𐐿"), ('𐐘', "𐑀"), ('𐐙', "𐑁"), ('𐐚', "𐑂")]

/-- Slice 13 of the lowercase table (split only to keep
elaboration fast). -/
def pyLowerTablePart13 : List (Char × String) := [
  ('𐐛', "𐑃"), ('𐐜', "𐑄"), ('𐐝', "𐑅"), ('𐐞', "𐑆"), ('𐐟', "𐑇"),
  ('𐐠', "𐑈"), ('𐐡', "𐑉"), ('𐐢', "𐑊"), ('𐐣', "𐑋"), ('𐐤', "𐑌"),
  ('𐐥', "𐑍"), ('𐐦', "𐑎"), ('𐐧', "𐑏"), ('𐒰', "𐓘"), ('𐒱', "𐓙"),
  ('𐒲', "𐓚"), ('𐒳', "𐓛"), ('𐒴', "𐓜"), ('𐒵', "𐓝"), ('𐒶', "𐓞"),
  ('𐒷', "𐓟"), ('𐒸', "𐓠"), ('𐒹', "𐓡"), ('𐒺', "𐓢"), ('𐒻', "𐓣"),
  ('𐒼', "𐓤"), ('𐒽', "𐓥"), ('𐒾', "𐓦"), ('𐒿', "𐓧"), ('𐓀', "𐓨"),
  ('𐓁', "𐓩"), ('𐓂', "𐓪"), ('𐓃', "𐓫"), ('𐓄', "𐓬"), ('𐓅', "𐓭"),
  ('𐓆', "𐓮"), ('𐓇', "𐓯"), ('𐓈', "𐓰"), ('𐓉', "𐓱"), ('𐓊', "𐓲"),
  ('𐓋', "𐓳"), ('𐓌', "𐓴"), ('𐓍', "𐓵"), ('𐓎', "𐓶"), ('𐓏', "𐓷"),
  ('𐓐', "𐓸"), ('𐓑', "𐓹"), ('𐓒', "𐓺"), ('𐓓', "𐓻"), ('𐕰', "𐖗"),
  ('𐕱', "𐖘"), ('𐕲', "𐖙"), ('𐕳', "𐖚"), ('𐕴', "𐖛"), ('𐕵', "𐖜"),
  ('𐕶', "𐖝"), ('𐕷', "𐖞"), ('𐕸', "𐖟"), ('𐕹', "𐖠"), ('𐕺', "𐖡"),
  ('𐕼', "𐖣"), ('𐕽', "𐖤"), ('𐕾', "𐖥"), ('𐕿', "𐖦"), ('𐖀', "𐖧"),
  ('𐖁', "𐖨"), ('𐖂', "𐖩"), ('𐖃', "𐖪"), ('𐖄', "𐖫"), ('𐖅', "𐖬"),
  ('𐖆', "𐖭"), ('𐖇', "𐖮"), ('𐖈', "𐖯"), ('𐖉', "𐖰"), ('𐖊', "𐖱"),
  ('𐖌', "𐖳"), ('𐖍', "𐖴"), ('𐖎', "𐖵"), ('𐖏', "𐖶"), ('𐖐', "𐖷"),
  ('𐖑', "𐖸"), ('𐖒', "𐖹"), ('𐖔', "𐖻"), ('𐖕', "𐖼"), ('𐲀', "𐳀"),
  ('𐲁', "𐳁"), ('𐲂', "𐳂"), ('𐲃', "𐳃"), ('𐲄', "𐳄"), ('𐲅', "𐳅"),
  ('𐲆', "𐳆"), ('𐲇', "𐳇"), ('𐲈', "𐳈"), ('𐲉', "𐳉"), ('𐲊', "𐳊"),
  ('𐲋', "𐳋"), ('𐲌', "𐳌"), ('𐲍', "𐳍"), ('𐲎', "𐳎"), ('𐲏', "𐳏")]

/-- Slice 14 of the lowercase table (split only to keep
elaboration fast). -/
def pyLowerTablePart14 : List (Char × String) := [
  ('𐲐', "𐳐"), ('𐲑', "𐳑"), ('𐲒', "𐳒"), ('𐲓', "𐳓"), ('𐲔', "𐳔"),
  ('𐲕', "𐳕"), ('𐲖', "𐳖"), ('𐲗', "𐳗"), ('𐲘', "𐳘"), ('𐲙', "𐳙"),
  ('𐲚', "𐳚"), ('𐲛', "𐳛"), ('𐲜', "𐳜"), ('𐲝', "𐳝"), ('𐲞', "𐳞"),
  ('𐲟', "𐳟"), ('𐲠', "𐳠"), ('𐲡', "𐳡"), ('𐲢', "𐳢"), ('𐲣', "𐳣"),
  ('𐲤', "𐳤"), ('𐲥', "𐳥"), ('𐲦', "𐳦"), ('𐲧', "𐳧"), ('𐲨', "𐳨"),
  ('𐲩', "𐳩"), ('𐲪', "𐳪"), ('𐲫', "𐳫"), ('𐲬', "𐳬"), ('𐲭', "𐳭"),
  ('𐲮', "𐳮"), ('𐲯', "𐳯"), ('𐲰', "𐳰"), ('𐲱', "𐳱"), ('𐲲', "𐳲"),
  ('𑢠', "𑣀"), ('𑢡', "𑣁"), ('𑢢', "𑣂"), ('𑢣', "𑣃"), ('𑢤', "𑣄"),
  ('𑢥', "𑣅"), ('𑢦', "𑣆"), ('𑢧', "𑣇"), ('𑢨', "𑣈"), ('𑢩', "𑣉"),
  ('𑢪', "𑣊"), ('𑢫', "𑣋"), ('𑢬', "𑣌"), ('𑢭', "𑣍"), ('𑢮', "𑣎"),
  ('𑢯', "𑣏"), ('𑢰', "𑣐"), ('𑢱', "𑣑"), ('𑢲', "𑣒"), ('𑢳', "𑣓"),
  ('𑢴', "𑣔"), ('𑢵', "𑣕"), ('𑢶', "𑣖"), ('𑢷', "𑣗"), ('𑢸', "𑣘"),
  ('𑢹', "𑣙"), ('𑢺', "𑣚"), ('𑢻', "𑣛"), ('𑢼', "𑣜"), ('𑢽', "𑣝"),
  ('𑢾', "𑣞"), ('𑢿', "𑣟"), ('𖹀', "𖹠"), ('𖹁', "𖹡"), ('𖹂', "𖹢"),
  ('𖹃', "𖹣"), ('𖹄', "𖹤"), ('𖹅', "𖹥"), ('𖹆', "𖹦"), ('𖹇', "𖹧"),
  ('𖹈', "𖹨"), ('𖹉', "𖹩"), ('𖹊', "𖹪"), ('𖹋', "𖹫"), ('𖹌', "𖹬"),
  ('𖹍', "𖹭"), ('𖹎', "𖹮"), ('𖹏', "𖹯"), ('𖹐', "𖹰"), ('𖹑', "𖹱"),
  ('𖹒', "𖹲"), ('𖹓', "𖹳"), ('𖹔', "𖹴"), ('𖹕', "𖹵"), ('𖹖', "𖹶"),
  ('𖹗', "𖹷"), ('𖹘', "𖹸"), ('𖹙', "𖹹"), ('𖹚', "𖹺"), ('𖹛', "𖹻"),
  ('𖹜', "𖹼"), ('𖹝', "𖹽"), ('𖹞', "𖹾"), ('𖹟', "𖹿"), ('𞤀', "𞤢")]

/-- Slice 15 of the lowercase table (split only to keep
elaboration fast). -/
def pyLowerTablePart15 : List (Char × String) := [
  ('𞤁', "𞤣"), ('𞤂', "𞤤"), ('𞤃', "𞤥"), ('𞤄', "𞤦"), ('𞤅', "𞤧"),
  ('𞤆', "𞤨"), ('𞤇', "𞤩"), ('𞤈', "𞤪"), ('𞤉', "𞤫"), ('𞤊', "𞤬"),
  ('𞤋', "𞤭"), ('𞤌', "𞤮"), ('𞤍', "𞤯"), ('𞤎', "𞤰"), ('𞤏', "𞤱"),
  ('𞤐', "𞤲"), ('𞤑', "𞤳"), ('𞤒', "𞤴"), ('𞤓', "𞤵"), ('𞤔', "𞤶"),
  ('𞤕', "𞤷"), ('𞤖', "𞤸"), ('𞤗', "𞤹"), ('𞤘', "𞤺"), ('𞤙', "𞤻"),
  ('𞤚', "𞤼"), ('𞤛', "𞤽"), ('𞤜', "𞤾"), ('𞤝', "𞤿"), ('𞤞', "𞥀"),
  ('𞤟', "𞥁"), ('𞤠', "𞥂"), ('𞤡', "𞥃")]

/-- Model of Python's built-in `str.lower` applied to a single
character: the complete list of pairs `(c, c.lower())` for every
Unicode code point whose lowercase differs from itself (1433 pairs,
generated from the Unicode character database over all of Unicode).
Exactly one lowercase is not a single character: U+0130 maps to the
two-character sequence of `i` followed by combining dot above. -/
def pyLowerTable : List (Char × String) :=
  pyLowerTablePart1 ++ pyLowerTablePart2 ++ pyLowerTablePart3 ++ pyLowerTablePart4 ++ pyLowerTablePart5 ++ pyLowerTablePart6 ++ pyLowerTablePart7 ++ pyLowerTablePart8 ++ pyLowerTablePart9 ++ pyLowerTablePart10 ++ pyLowerTablePart11 ++ pyLowerTablePart12 ++ pyLowerTablePart13 ++ pyLowerTablePart14 ++ pyLowerTablePart15

/-- The fallback `letter.lower()` of `normalize_greek_letter`, for one
character: look the character up in the complete lowercase table,
returning the character itself (as a one-character string) when its
lowercase is itself. -/
def pyLower (c : Char) : String :=
  (List.lookup c pyLowerTable).getD (String.singleton c)

/-- The function `normalize_greek_letter` (`scripts/split.py` lines
13–66): look the character up in `normalization_map`, falling back to
`letter.lower()` when absent.  The Python function returns a string:
the table's values are one-letter strings, and the fallback is the
full lowercase of the character (two characters exactly for U+0130). -/
def normalize_greek_letter (c : Char) : String :=
  match List.lookup c normalizationMap with
  | some b => String.singleton b
  | none => pyLower c

/-- The string literal `greek_alphabet` of `get_first_letter_key`
(`scripts/split.py` line 82): the 24-letter canonical alphabet. -/
def greek_alphabet : String := "αβγδεζηθικλμνξοπρστυφχψω"

/-- Python's string comparison step for `pySubstring`: does the
second list start with the first? -/
def pyStartsWith : List Char → List Char → Bool
  | [], _ => true
  | _ :: _, [] => false
  | a :: as, b :: bs => a == b && pyStartsWith as bs

/-- Python's substring test `x in s` on strings: contiguous
containment of the code-point sequence. -/
def pySubstring (needle : List Char) : List Char → Bool
  | [] => needle.isEmpty
  | b :: t => pyStartsWith needle (b :: t) || pySubstring needle t

/-- The function `get_first_letter_key` (`scripts/split.py` lines
69–85).  `if not orth_text` is the empty-string test; `if normalized
and normalized in greek_alphabet` is the truthiness test on the
normalized string followed by Python's substring membership test, and
the extractor returns the normalized string itself on success. -/
def get_first_letter_key (orth_text : String) : String :=
  match orth_text.data with
  | [] => "other"
  | first_char :: _ =>
    let normalized := normalize_greek_letter first_char
    if normalized ≠ "" ∧ pySubstring normalized.data greek_alphabet.data = true
    then normalized
    else "other"

/-- One role-tagged definition of a lexicon entry (the
`{role, text}` dicts built in `parse_xml_to_json`). -/
structure Defn where
  role : String
  text : String
deriving DecidableEq

/-- One lexicon entry (the `entry_data` dict of `parse_xml_to_json`):
`n` is the entry-number attribute, `orth` the Greek headword,
`definitions` the ordered role/text pairs.  All fields default to empty
values in the source when absent, so any value of this type can occur. -/
structure Record where
  n : String
  orth : String
  definitions : List Defn
deriving DecidableEq

/-- One step of the grouping loop:
`entries_by_letter[first_letter].append(entry_data)` on a
`defaultdict(list)`.  The insertion-ordered Python dict is modelled as
an association list: appending to an existing key's list in place, or
creating the key at the end on first use. -/
def addRecord (groups : List (String × List Record)) (key : String)
    (r : Record) : List (String × List Record) :=
  match groups with
  | [] => [(key, [r])]
  | (k, l) :: rest =>
    if k = key then (k, l ++ [r]) :: rest
    else (k, l) :: addRecord rest key r

/-- The grouping loop of `parse_xml_to_json` (`scripts/split.py` lines
97–127), over the already-extracted list of records (XML
deserialization is out-of-scope I/O): a single pass in source order,
appending each record to the group of `get_first_letter_key(orth)`. -/
def parse_xml_to_json (records : List Record) : List (String × List Record) :=
  records.foldl (fun gs r => addRecord gs (get_first_letter_key r.orth) r) []

/-- First-match association-list lookup of a group's record list,
returning `[]` for an absent key (matching `defaultdict(list)` reads). -/
def groupOf (groups : List (String × List Record)) (key : String) :
    List Record :=
  match groups with
  | [] => []
  | (k, l) :: rest => if k = key then l else groupOf rest key

/-- The keys of a partition result, in insertion order
(`entries_by_letter.keys()`). -/
def keysOf (groups : List (String × List Record)) : List String :=
  groups.map Prod.fst

/-- Total record count across all groups (the sum of the per-file
`count` fields written by `write_json_files`). -/
def sumCounts (groups : List (String × List Record)) : Nat :=
  (groups.map fun g => g.2.length).sum

/-- Python's `<` on strings: strict lexicographic comparison of the
code-point sequences. -/
def charListLt : List Char → List Char → Bool
  | _, [] => false
  | [], _ :: _ => true
  | a :: as, b :: bs =>
    a.toNat < b.toNat || (a.toNat = b.toNat && charListLt as bs)

/-- Python's `<=` on strings (total order used by `sorted`):
`s <= t` iff not `t < s`. -/
def keyLe (s t : String) : Bool := ! charListLt t.data s.data

/-- The iteration order of `write_json_files` (`scripts/split.py` line
141): `for letter in sorted(entries_by_letter.keys())`.  Python's
`sorted` on strings is an ascending sort under lexicographic
code-point comparison (`keyLe`); it is modelled by insertion sort
(the keys of a partition result are distinct, so every correct
comparison sort yields the same list). -/
def write_order (groups : List (String × List Record)) : List String :=
  List.insertionSort (fun s t => keyLe s t = true) (keysOf groups)

/-- The 24 canonical single-letter keys, as one-character strings. -/
def canonicalKeys : List String := greek_alphabet.data.map String.singleton

/-- Position of a string in a list of keys (the index at which
`write_json_files` emits that key's group). -/
def idxOf (s : String) : List String → Nat
  | [] => 0
  | t :: ts => if t = s then 0 else idxOf s ts + 1

/-- C1's quantified property, as the spec states it: whenever a
partition result's emitted key sequence contains the fallback key
`"other"` together with a canonical-letter key, the fallback group's
position is after that canonical-letter group's position. -/
def fallbackLastClaim : Prop :=
  ∀ (rs : List Record) (k : String), k ∈ canonicalKeys →
    k ∈ write_order (parse_xml_to_json rs) →
    "other" ∈ write_order (parse_xml_to_json rs) →
    idxOf k (write_order (parse_xml_to_json rs)) <
      idxOf "other" (write_order (parse_xml_to_json rs))

/-- Breathing marks named by the spec's cross-product. -/
inductive Breathing
  | smooth
  | rough
deriving DecidableEq

/-- Accent types named by the spec's cross-product. -/
inductive Accent
  | acute
  | grave
  | circumflex
deriving DecidableEq

/-- One point of the spec's cross-product of diacritics for a base
letter: optional breathing, optional accent, diaeresis, iota
subscript/adscript, and case. -/
structure DiacriticCombo where
  breathing : Option Breathing
  accent : Option Accent
  dialytika : Bool
  iotaSub : Bool
  upper : Bool
deriving DecidableEq

/-- A precomposed Unicode character together with its base letter and
diacritic combination. -/
structure PrecomposedGreekChar where
  char : Char
  base : Char
  combo : DiacriticCombo
deriving DecidableEq

/-- Slice 1 of the precomposed-character table (split only to keep
elaboration fast). -/
def precomposedGreekPart1 : List PrecomposedGreekChar := [
  ⟨'Ά', 'α', ⟨none, some Accent.acute, false, false, true⟩⟩,
  ⟨'Έ', 'ε', ⟨none, some Accent.acute, false, false, true⟩⟩,
  ⟨'Ή', 'η', ⟨none, some Accent.acute, false, false, true⟩⟩,
  ⟨'Ί', 'ι', ⟨none, some Accent.acute, false, false, true⟩⟩,
  ⟨'Ό', 'ο', ⟨none, some Accent.acute, false, false, true⟩⟩,
  ⟨'Ύ', 'υ', ⟨none, some Accent.acute, false, false, true⟩⟩,
  ⟨'Ώ', 'ω', ⟨none, some Accent.acute, false, false, true⟩⟩,
  ⟨'ΐ', 'ι', ⟨none, some Accent.acute, true, false, false⟩⟩,
  ⟨'Α', 'α', ⟨none, none, false, false, true⟩⟩,
  ⟨'Ε', 'ε', ⟨none, none, false, false, true⟩⟩,
  ⟨'Η', 'η', ⟨none, none, false, false, true⟩⟩,
  ⟨'Ι', 'ι', ⟨none, none, false, false, true⟩⟩,
  ⟨'Ο', 'ο', ⟨none, none, false, false, true⟩⟩,
  ⟨'Ρ', 'ρ', ⟨none, none, false, false, true⟩⟩,
  ⟨'Υ', 'υ', ⟨none, none, false, false, true⟩⟩,
  ⟨'Ω', 'ω', ⟨none, none, false, false, true⟩⟩,
  ⟨'Ϊ', 'ι', ⟨none, none, true, false, true⟩⟩,
  ⟨'Ϋ', 'υ', ⟨none, none, true, false, true⟩⟩,
  ⟨'ά', 'α', ⟨none, some Accent.acute, false, false, false⟩⟩,
  ⟨'έ', 'ε', ⟨none, some Accent.acute, false, false, false⟩⟩,
  ⟨'ή', 'η', ⟨none, some Accent.acute, false, false, false⟩⟩,
  ⟨'ί', 'ι', ⟨none, some Accent.acute, false, false, false⟩⟩,
  ⟨'ΰ', 'υ', ⟨none, some Accent.acute, true, false, false⟩⟩,
  ⟨'α', 'α', ⟨none, none, false, false, false⟩⟩,
  ⟨'ε', 'ε', ⟨none, none, false, false, false⟩⟩,
  ⟨'η', 'η', ⟨none, none, false, false, false⟩⟩,
  ⟨'ι', 'ι', ⟨none, none, false, false, false⟩⟩,
  ⟨'ο', 'ο', ⟨none, none, false, false, false⟩⟩,
  ⟨'ρ', 'ρ', ⟨none, none, false, false, false⟩⟩,
  ⟨'υ', 'υ', ⟨none, none, false, false, false⟩⟩,
  ⟨'ω', 'ω', ⟨none, none, false, false, false⟩⟩,
  ⟨'ϊ', 'ι', ⟨none, none, true, false, false⟩⟩,
  ⟨'ϋ', 'υ', ⟨none, none, true, false, false⟩⟩,
  ⟨'ό', 'ο', ⟨none, some Accent.acute, false, false, false⟩⟩,
  ⟨'ύ', 'υ', ⟨none, some Accent.acute, false, false, false⟩⟩,
  ⟨'ώ', 'ω', ⟨none, some Accent.acute, false, false, false⟩⟩,
  ⟨'ἀ', 'α', ⟨some Breathing.smooth, none, false, false, false⟩⟩,
  ⟨'ἁ', 'α', ⟨some Breathing.rough, none, false, false, false⟩⟩,
  ⟨'ἂ', 'α', ⟨some Breathing.smooth, some Accent.grave, false, false, false⟩⟩,
  ⟨'ἃ', 'α', ⟨some Breathing.rough, some Accent.grave, false, false, false⟩⟩]

/-- Slice 2 of the precomposed-character table (split only to keep
elaboration fast). -/
def precomposedGreekPart2 : List PrecomposedGreekChar := [
  ⟨'ἄ', 'α', ⟨some Breathing.smooth, some Accent.acute, false, false, false⟩⟩,
  ⟨'ἅ', 'α', ⟨some Breathing.rough, some Accent.acute, false, false, false⟩⟩,
  ⟨'ἆ', 'α', ⟨some Breathing.smooth, some Accent.circumflex, false, false, false⟩⟩,
  ⟨'ἇ', 'α', ⟨some Breathing.rough, some Accent.circumflex, false, false, false⟩⟩,
  ⟨'Ἀ', 'α', ⟨some Breathing.smooth, none, false, false, true⟩⟩,
  ⟨'Ἁ', 'α', ⟨some Breathing.rough, none, false, false, true⟩⟩,
  ⟨'Ἂ', 'α', ⟨some Breathing.smooth, some Accent.grave, false, false, true⟩⟩,
  ⟨'Ἃ', 'α', ⟨some Breathing.rough, some Accent.grave, false, false, true⟩⟩,
  ⟨'Ἄ', 'α', ⟨some Breathing.smooth, some Accent.acute, false, false, true⟩⟩,
  ⟨'Ἅ', 'α', ⟨some Breathing.rough, some Accent.acute, false, false, true⟩⟩,
  ⟨'Ἆ', 'α', ⟨some Breathing.smooth, some Accent.circumflex, false, false, true⟩⟩,
  ⟨'Ἇ', 'α', ⟨some Breathing.rough, some Accent.circumflex, false, false, true⟩⟩,
  ⟨'ἐ', 'ε', ⟨some Breathing.smooth, none, false, false, false⟩⟩,
  ⟨'ἑ', 'ε', ⟨some Breathing.rough, none, false, false, false⟩⟩,
  ⟨'ἒ', 'ε', ⟨some Breathing.smooth, some Accent.grave, false, false, false⟩⟩,
  ⟨'ἓ', 'ε', ⟨some Breathing.rough, some Accent.grave, false, false, false⟩⟩,
  ⟨'ἔ', 'ε', ⟨some Breathing.smooth, some Accent.acute, false, false, false⟩⟩,
  ⟨'ἕ', 'ε', ⟨some Breathing.rough, some Accent.acute, false, false, false⟩⟩,
  ⟨'Ἐ', 'ε', ⟨some Breathing.smooth, none, false, false, true⟩⟩,
  ⟨'Ἑ', 'ε', ⟨some Breathing.rough, none, false, false, true⟩⟩,
  ⟨'Ἒ', 'ε', ⟨some Breathing.smooth, some Accent.grave, false, false, true⟩⟩,
  ⟨'Ἓ', 'ε', ⟨some Breathing.rough, some Accent.grave, false, false, true⟩⟩,
  ⟨'Ἔ', 'ε', ⟨some Breathing.smooth, some Accent.acute, false, false, true⟩⟩,
  ⟨'Ἕ', 'ε', ⟨some Breathing.rough, some Accent.acute, false, false, true⟩⟩,
  ⟨'ἠ', 'η', ⟨some Breathing.smooth, none, false, false, false⟩⟩,
  ⟨'ἡ', 'η', ⟨some Breathing.rough, none, false, false, false⟩⟩,
  ⟨'ἢ', 'η', ⟨some Breathing.smooth, some Accent.grave, false, false, false⟩⟩,
  ⟨'ἣ', 'η', ⟨some Breathing.rough, some Accent.grave, false, false, false⟩⟩,
  ⟨'ἤ', 'η', ⟨some Breathing.smooth, some Accent.acute, false, false, false⟩⟩,
  ⟨'ἥ', 'η', ⟨some Breathing.rough, some Accent.acute, false, false, false⟩⟩,
  ⟨'ἦ', 'η', ⟨some Breathing.smooth, some Accent.circumflex, false, false, false⟩⟩,
  ⟨'ἧ', 'η', ⟨some Breathing.rough, some Accent.circumflex, false, false, false⟩⟩,
  ⟨'Ἠ', 'η', ⟨some Breathing.smooth, none, false, false, true⟩⟩,
  ⟨'Ἡ', 'η', ⟨some Breathing.rough, none, false, false, true⟩⟩,
  ⟨'Ἢ', 'η', ⟨some Breathing.smooth, some Accent.grave, false, false, true⟩⟩,
  ⟨'Ἣ', 'η', ⟨some Breathing.rough, some Accent.grave, false, false, true⟩⟩,
  ⟨'Ἤ', 'η', ⟨some Breathing.smooth, some Accent.acute, false, false, true⟩⟩,
  ⟨'Ἥ', 'η', ⟨some Breathing.rough, some Accent.acute, false, false, true⟩⟩,
  ⟨'Ἦ', 'η', ⟨some Breathing.smooth, some Accent.circumflex, false, false, true⟩⟩,
  ⟨'Ἧ', 'η', ⟨some Breathing.rough, some Accent.circumflex, false, false, true⟩⟩]

/-- Slice 3 of the precomposed-character table (split only to keep
elaboration fast). -/
def precomposedGreekPart3 : List PrecomposedGreekChar := [
  ⟨'ἰ', 'ι', ⟨some Breathing.smooth, none, false, false, false⟩⟩,
  ⟨'ἱ', 'ι', ⟨some Breathing.rough, none, false, false, false⟩⟩,
  ⟨'ἲ', 'ι', ⟨some Breathing.smooth, some Accent.grave, false, false, false⟩⟩,
  ⟨'ἳ', 'ι', ⟨some Breathing.rough, some Accent.grave, false, false, false⟩⟩,
  ⟨'ἴ', 'ι', ⟨some Breathing.smooth, some Accent.acute, false, false, false⟩⟩,
  ⟨'ἵ', 'ι', ⟨some Breathing.rough, some Accent.acute, false, false, false⟩⟩,
  ⟨'ἶ', 'ι', ⟨some Breathing.smooth, some Accent.circumflex, false, false, false⟩⟩,
  ⟨'ἷ', 'ι', ⟨some Breathing.rough, some Accent.circumflex, false, false, false⟩⟩,
  ⟨'Ἰ', 'ι', ⟨some Breathing.smooth, none, false, false, true⟩⟩,
  ⟨'Ἱ', 'ι', ⟨some Breathing.rough, none, false, false, true⟩⟩,
  ⟨'Ἲ', 'ι', ⟨some Breathing.smooth, some Accent.grave, false, false, true⟩⟩,
  ⟨'Ἳ', 'ι', ⟨some Breathing.rough, some Accent.grave, false, false, true⟩⟩,
  ⟨'Ἴ', 'ι', ⟨some Breathing.smooth, some Accent.acute, false, false, true⟩⟩,
  ⟨'Ἵ', 'ι', ⟨some Breathing.rough, some Accent.acute, false, false, true⟩⟩,
  ⟨'Ἶ', 'ι', ⟨some Breathing.smooth, some Accent.circumflex, false, false, true⟩⟩,
  ⟨'Ἷ', 'ι', ⟨some Breathing.rough, some Accent.circumflex, false, false, true⟩⟩,
  ⟨'ὀ', 'ο', ⟨some Breathing.smooth, none, false, false, false⟩⟩,
  ⟨'ὁ', 'ο', ⟨some Breathing.rough, none, false, false, false⟩⟩,
  ⟨'ὂ', 'ο', ⟨some Breathing.smooth, some Accent.grave, false, false, false⟩⟩,
  ⟨'ὃ', 'ο', ⟨some Breathing.rough, some Accent.grave, false, false, false⟩⟩,
  ⟨'ὄ', 'ο', ⟨some Breathing.smooth, some Accent.acute, false, false, false⟩⟩,
  ⟨'ὅ', 'ο', ⟨some Breathing.rough, some Accent.acute, false, false, false⟩⟩,
  ⟨'Ὀ', 'ο', ⟨some Breathing.smooth, none, false, false, true⟩⟩,
  ⟨'Ὁ', 'ο', ⟨some Breathing.rough, none, false, false, true⟩⟩,
  ⟨'Ὂ', 'ο', ⟨some Breathing.smooth, some Accent.grave, false, false, true⟩⟩,
  ⟨'Ὃ', 'ο', ⟨some Breathing.rough, some Accent.grave, false, false, true⟩⟩,
  ⟨'Ὄ', 'ο', ⟨some Breathing.smooth, some Accent.acute, false, false, true⟩⟩,
  ⟨'Ὅ', 'ο', ⟨some Breathing.rough, some Accent.acute, false, false, true⟩⟩,
  ⟨'ὐ', 'υ', ⟨some Breathing.smooth, none, false, false, false⟩⟩,
  ⟨'ὑ', 'υ', ⟨some Breathing.rough, none, false, false, false⟩⟩,
  ⟨'ὒ', 'υ', ⟨some Breathing.smooth, some Accent.grave, false, false, false⟩⟩,
  ⟨'ὓ', 'υ', ⟨some Breathing.rough, some Accent.grave, false, false, false⟩⟩,
  ⟨'ὔ', 'υ', ⟨some Breathing.smooth, some Accent.acute, false, false, false⟩⟩,
  ⟨'ὕ', 'υ', ⟨some Breathing.rough, some Accent.acute, false, false, false⟩⟩,
  ⟨'ὖ', 'υ', ⟨some Breathing.smooth, some Accent.circumflex, false, false, false⟩⟩,
  ⟨'ὗ', 'υ', ⟨some Breathing.rough, some Accent.circumflex, false, false, false⟩⟩,
  ⟨'Ὑ', 'υ', ⟨some Breathing.rough, none, false, false, true⟩⟩,
  ⟨'Ὓ', 'υ', ⟨some Breathing.rough, some Accent.grave, false, false, true⟩⟩,
  ⟨'Ὕ', 'υ', ⟨some Breathing.rough, some Accent.acute, false, false, true⟩⟩,
  ⟨'Ὗ', 'υ', ⟨some Breathing.rough, some Accent.circumflex, false, false, true⟩⟩]

/-- Slice 4 of the precomposed-character table (split only to keep
elaboration fast). -/
def precomposedGreekPart4 : List PrecomposedGreekChar := [
  ⟨'ὠ', 'ω', ⟨some Breathing.smooth, none, false, false, false⟩⟩,
  ⟨'ὡ', 'ω', ⟨some Breathing.rough, none, false, false, false⟩⟩,
  ⟨'ὢ', 'ω', ⟨some Breathing.smooth, some Accent.grave, false, false, false⟩⟩,
  ⟨'ὣ', 'ω', ⟨some Breathing.rough, some Accent.grave, false, false, false⟩⟩,
  ⟨'ὤ', 'ω', ⟨some Breathing.smooth, some Accent.acute, false, false, false⟩⟩,
  ⟨'ὥ', 'ω', ⟨some Breathing.rough, some Accent.acute, false, false, false⟩⟩,
  ⟨'ὦ', 'ω', ⟨some Breathing.smooth, some Accent.circumflex, false, false, false⟩⟩,
  ⟨'ὧ', 'ω', ⟨some Breathing.rough, some Accent.circumflex, false, false, false⟩⟩,
  ⟨'Ὠ', 'ω', ⟨some Breathing.smooth, none, false, false, true⟩⟩,
  ⟨'Ὡ', 'ω', ⟨some Breathing.rough, none, false, false, true⟩⟩,
  ⟨'Ὢ', 'ω', ⟨some Breathing.smooth, some Accent.grave, false, false, true⟩⟩,
  ⟨'Ὣ', 'ω', ⟨some Breathing.rough, some Accent.grave, false, false, true⟩⟩,
  ⟨'Ὤ', 'ω', ⟨some Breathing.smooth, some Accent.acute, false, false, true⟩⟩,
  ⟨'Ὥ', 'ω', ⟨some Breathing.rough, some Accent.acute, false, false, true⟩⟩,
  ⟨'Ὦ', 'ω', ⟨some Breathing.smooth, some Accent.circumflex, false, false, true⟩⟩,
  ⟨'Ὧ', 'ω', ⟨some Breathing.rough, some Accent.circumflex, false, false, true⟩⟩,
  ⟨'ὰ', 'α', ⟨none, some Accent.grave, false, false, false⟩⟩,
  ⟨'ά', 'α', ⟨none, some Accent.acute, false, false, false⟩⟩,
  ⟨'ὲ', 'ε', ⟨none, some Accent.grave, false, false, false⟩⟩,
  ⟨'έ', 'ε', ⟨none, some Accent.acute, false, false, false⟩⟩,
  ⟨'ὴ', 'η', ⟨none, some Accent.grave, false, false, false⟩⟩,
  ⟨'ή', 'η', ⟨none, some Accent.acute, false, false, false⟩⟩,
  ⟨'ὶ', 'ι', ⟨none, some Accent.grave, false, false, false⟩⟩,
  ⟨'ί', 'ι', ⟨none, some Accent.acute, false, false, false⟩⟩,
  ⟨'ὸ', 'ο', ⟨none, some Accent.grave, false, false, false⟩⟩,
  ⟨'ό', 'ο', ⟨none, some Accent.acute, false, false, false⟩⟩,
  ⟨'ὺ', 'υ', ⟨none, some Accent.grave, false, false, false⟩⟩,
  ⟨'ύ', 'υ', ⟨none, some Accent.acute, false, false, false⟩⟩,
  ⟨'ὼ', 'ω', ⟨none, some Accent.grave, false, false, false⟩⟩,
  ⟨'ώ', 'ω', ⟨none, some Accent.acute, false, false, false⟩⟩,
  ⟨'ᾀ', 'α', ⟨some Breathing.smooth, none, false, true, false⟩⟩,
  ⟨'ᾁ', 'α', ⟨some Breathing.rough, none, false, true, false⟩⟩,
  ⟨'ᾂ', 'α', ⟨some Breathing.smooth, some Accent.grave, false, true, false⟩⟩,
  ⟨'ᾃ', 'α', ⟨some Breathing.rough, some Accent.grave, false, true, false⟩⟩,
  ⟨'ᾄ', 'α', ⟨some Breathing.smooth, some Accent.acute, false, true, false⟩⟩,
  ⟨'ᾅ', 'α', ⟨some Breathing.rough, some Accent.acute, false, true, false⟩⟩,
  ⟨'ᾆ', 'α', ⟨some Breathing.smooth, some Accent.circumflex, false, true, false⟩⟩,
  ⟨'ᾇ', 'α', ⟨some Breathing.rough, some Accent.circumflex, false, true, false⟩⟩,
  ⟨'ᾈ', 'α', ⟨some Breathing.smooth, none, false, true, true⟩⟩,
  ⟨'ᾉ', 'α', ⟨some Breathing.rough, none, false, true, true⟩⟩]

/-- Slice 5 of the precomposed-character table (split only to keep
elaboration fast). -/
def precomposedGreekPart5 : List PrecomposedGreekChar := [
  ⟨'ᾊ', 'α', ⟨some Breathing.smooth, some Accent.grave, false, true, true⟩⟩,
  ⟨'ᾋ', 'α', ⟨some Breathing.rough, some Accent.grave, false, true, true⟩⟩,
  ⟨'ᾌ', 'α', ⟨some Breathing.smooth, some Accent.acute, false, true, true⟩⟩,
  ⟨'ᾍ', 'α', ⟨some Breathing.rough, some Accent.acute, false, true, true⟩⟩,
  ⟨'ᾎ', 'α', ⟨some Breathing.smooth, some Accent.circumflex, false, true, true⟩⟩,
  ⟨'ᾏ', 'α', ⟨some Breathing.rough, some Accent.circumflex, false, true, true⟩⟩,
  ⟨'ᾐ', 'η', ⟨some Breathing.smooth, none, false, true, false⟩⟩,
  ⟨'ᾑ', 'η', ⟨some Breathing.rough, none, false, true, false⟩⟩,
  ⟨'ᾒ', 'η', ⟨some Breathing.smooth, some Accent.grave, false, true, false⟩⟩,
  ⟨'ᾓ', 'η', ⟨some Breathing.rough, some Accent.grave, false, true, false⟩⟩,
  ⟨'ᾔ', 'η', ⟨some Breathing.smooth, some Accent.acute, false, true, false⟩⟩,
  ⟨'ᾕ', 'η', ⟨some Breathing.rough, some Accent.acute, false, true, false⟩⟩,
  ⟨'ᾖ', 'η', ⟨some Breathing.smooth, some Accent.circumflex, false, true, false⟩⟩,
  ⟨'ᾗ', 'η', ⟨some Breathing.rough, some Accent.circumflex, false, true, false⟩⟩,
  ⟨'ᾘ', 'η', ⟨some Breathing.smooth, none, false, true, true⟩⟩,
  ⟨'ᾙ', 'η', ⟨some Breathing.rough, none, false, true, true⟩⟩,
  ⟨'ᾚ', 'η', ⟨some Breathing.smooth, some Accent.grave, false, true, true⟩⟩,
  ⟨'ᾛ', 'η', ⟨some Breathing.rough, some Accent.grave, false, true, true⟩⟩,
  ⟨'ᾜ', 'η', ⟨some Breathing.smooth, some Accent.acute, false, true, true⟩⟩,
  ⟨'ᾝ', 'η', ⟨some Breathing.rough, some Accent.acute, false, true, true⟩⟩,
  ⟨'ᾞ', 'η', ⟨some Breathing.smooth, some Accent.circumflex, false, true, true⟩⟩,
  ⟨'ᾟ', 'η', ⟨some Breathing.rough, some Accent.circumflex, false, true, true⟩⟩,
  ⟨'ᾠ', 'ω', ⟨some Breathing.smooth, none, false, true, false⟩⟩,
  ⟨'ᾡ', 'ω', ⟨some Breathing.rough, none, false, true, false⟩⟩,
  ⟨'ᾢ', 'ω', ⟨some Breathing.smooth, some Accent.grave, false, true, false⟩⟩,
  ⟨'ᾣ', 'ω', ⟨some Breathing.rough, some Accent.grave, false, true, false⟩⟩,
  ⟨'ᾤ', 'ω', ⟨some Breathing.smooth, some Accent.acute, false, true, false⟩⟩,
  ⟨'ᾥ', 'ω', ⟨some Breathing.rough, some Accent.acute, false, true, false⟩⟩,
  ⟨'ᾦ', 'ω', ⟨some Breathing.smooth, some Accent.circumflex, false, true, false⟩⟩,
  ⟨'ᾧ', 'ω', ⟨some Breathing.rough, some Accent.circumflex, false, true, false⟩⟩,
  ⟨'ᾨ', 'ω', ⟨some Breathing.smooth, none, false, true, true⟩⟩,
  ⟨'ᾩ', 'ω', ⟨some Breathing.rough, none, false, true, true⟩⟩,
  ⟨'ᾪ', 'ω', ⟨some Breathing.smooth, some Accent.grave, false, true, true⟩⟩,
  ⟨'ᾫ', 'ω', ⟨some Breathing.rough, some Accent.grave, false, true, true⟩⟩,
  ⟨'ᾬ', 'ω', ⟨some Breathing.smooth, some Accent.acute, false, true, true⟩⟩,
  ⟨'ᾭ', 'ω', ⟨some Breathing.rough, some Accent.acute, false, true, true⟩⟩,
  ⟨'ᾮ', 'ω', ⟨some Breathing.smooth, some Accent.circumflex, false, true, true⟩⟩,
  ⟨'ᾯ', 'ω', ⟨some Breathing.rough, some Accent.circumflex, false, true, true⟩⟩,
  ⟨'ᾲ', 'α', ⟨none, some Accent.grave, false, true, false⟩⟩,
  ⟨'ᾳ', 'α', ⟨none, none, false, true, false⟩⟩]

/-- Slice 6 of the precomposed-character table (split only to keep
elaboration fast). -/
def precomposedGreekPart6 : List PrecomposedGreekChar := [
  ⟨'ᾴ', 'α', ⟨none, some Accent.acute, false, true, false⟩⟩,
  ⟨'ᾶ', 'α', ⟨none, some Accent.circumflex, false, false, false⟩⟩,
  ⟨'ᾷ', 'α', ⟨none, some Accent.circumflex, false, true, false⟩⟩,
  ⟨'Ὰ', 'α', ⟨none, some Accent.grave, false, false, true⟩⟩,
  ⟨'Ά', 'α', ⟨none, some Accent.acute, false, false, true⟩⟩,
  ⟨'ᾼ', 'α', ⟨none, none, false, true, true⟩⟩,
  ⟨'ῂ', 'η', ⟨none, some Accent.grave, false, true, false⟩⟩,
  ⟨'ῃ', 'η', ⟨none, none, false, true, false⟩⟩,
  ⟨'ῄ', 'η', ⟨none, some Accent.acute, false, true, false⟩⟩,
  ⟨'ῆ', 'η', ⟨none, some Accent.circumflex, false, false, false⟩⟩,
  ⟨'ῇ', 'η', ⟨none, some Accent.circumflex, false, true, false⟩⟩,
  ⟨'Ὲ', 'ε', ⟨none, some Accent.grave, false, false, true⟩⟩,
  ⟨'Έ', 'ε', ⟨none, some Accent.acute, false, false, true⟩⟩,
  ⟨'Ὴ', 'η', ⟨none, some Accent.grave, false, false, true⟩⟩,
  ⟨'Ή', 'η', ⟨none, some Accent.acute, false, false, true⟩⟩,
  ⟨'ῌ', 'η', ⟨none, none, false, true, true⟩⟩,
  ⟨'ῒ', 'ι', ⟨none, some Accent.grave, true, false, false⟩⟩,
  ⟨'ΐ', 'ι', ⟨none, some Accent.acute, true, false, false⟩⟩,
  ⟨'ῖ', 'ι', ⟨none, some Accent.circumflex, false, false, false⟩⟩,
  ⟨'ῗ', 'ι', ⟨none, some Accent.circumflex, true, false, false⟩⟩,
  ⟨'Ὶ', 'ι', ⟨none, some Accent.grave, false, false, true⟩⟩,
  ⟨'Ί', 'ι', ⟨none, some Accent.acute, false, false, true⟩⟩,
  ⟨'ῢ', 'υ', ⟨none, some Accent.grave, true, false, false⟩⟩,
  ⟨'ΰ', 'υ', ⟨none, some Accent.acute, true, false, false⟩⟩,
  ⟨'ῤ', 'ρ', ⟨some Breathing.smooth, none, false, false, false⟩⟩,
  ⟨'ῥ', 'ρ', ⟨some Breathing.rough, none, false, false, false⟩⟩,
  ⟨'ῦ', 'υ', ⟨none, some Accent.circumflex, false, false, false⟩⟩,
  ⟨'ῧ', 'υ', ⟨none, some Accent.circumflex, true, false, false⟩⟩,
  ⟨'Ὺ', 'υ', ⟨none, some Accent.grave, false, false, true⟩⟩,
  ⟨'Ύ', 'υ', ⟨none, some Accent.acute, false, false, true⟩⟩,
  ⟨'Ῥ', 'ρ', ⟨some Breathing.rough, none, false, false, true⟩⟩,
  ⟨'ῲ', 'ω', ⟨none, some Accent.grave, false, true, false⟩⟩,
  ⟨'ῳ', 'ω', ⟨none, none, false, true, false⟩⟩,
  ⟨'ῴ', 'ω', ⟨none, some Accent.acute, false, true, false⟩⟩,
  ⟨'ῶ', 'ω', ⟨none, some Accent.circumflex, false, false, false⟩⟩,
  ⟨'ῷ', 'ω', ⟨none, some Accent.circumflex, false, true, false⟩⟩,
  ⟨'Ὸ', 'ο', ⟨none, some Accent.grave, false, false, true⟩⟩,
  ⟨'Ό', 'ο', ⟨none, some Accent.acute, false, false, true⟩⟩,
  ⟨'Ὼ', 'ω', ⟨none, some Accent.grave, false, false, true⟩⟩,
  ⟨'Ώ', 'ω', ⟨none, some Accent.acute, false, false, true⟩⟩]

/-- Slice 7 of the precomposed-character table (split only to keep
elaboration fast). -/
def precomposedGreekPart7 : List PrecomposedGreekChar := [
  ⟨'ῼ', 'ω', ⟨none, none, false, true, true⟩⟩]

/-- Every precomposed character of the Greek (U+0370–U+03FF) and Greek
Extended (U+1F00–U+1FFF) blocks whose decomposition is one of the
claim's base letters (the seven vowels or rho) plus diacritics drawn
only from the cross-product's dimensions (breathing, acute/grave/
circumflex accent, diaeresis, iota subscript/adscript, case), from the
Unicode character database.  Characters carrying out-of-scope marks
(macron, breve) are excluded; bare base letters realize the empty
combination; both tonos and oxia code points denote an acute accent. -/
def precomposedGreek : List PrecomposedGreekChar :=
  precomposedGreekPart1 ++ precomposedGreekPart2 ++ precomposedGreekPart3 ++ precomposedGreekPart4 ++ precomposedGreekPart5 ++ precomposedGreekPart6 ++ precomposedGreekPart7

/-- The sixteen oxia-accented code points: each duplicates a tonos
code point with the same base letter and diacritic combination, and is
absent from the normalization table. -/
def oxiaVariants : List PrecomposedGreekChar := [
  ⟨'ά', 'α', ⟨none, some Accent.acute, false, false, false⟩⟩,
  ⟨'έ', 'ε', ⟨none, some Accent.acute, false, false, false⟩⟩,
  ⟨'ή', 'η', ⟨none, some Accent.acute, false, false, false⟩⟩,
  ⟨'ί', 'ι', ⟨none, some Accent.acute, false, false, false⟩⟩,
  ⟨'ό', 'ο', ⟨none, some Accent.acute, false, false, false⟩⟩,
  ⟨'ύ', 'υ', ⟨none, some Accent.acute, false, false, false⟩⟩,
  ⟨'ώ', 'ω', ⟨none, some Accent.acute, false, false, false⟩⟩,
  ⟨'Ά', 'α', ⟨none, some Accent.acute, false, false, true⟩⟩,
  ⟨'Έ', 'ε', ⟨none, some Accent.acute, false, false, true⟩⟩,
  ⟨'Ή', 'η', ⟨none, some Accent.acute, false, false, true⟩⟩,
  ⟨'ΐ', 'ι', ⟨none, some Accent.acute, true, false, false⟩⟩,
  ⟨'Ί', 'ι', ⟨none, some Accent.acute, false, false, true⟩⟩,
  ⟨'ΰ', 'υ', ⟨none, some Accent.acute, true, false, false⟩⟩,
  ⟨'Ύ', 'υ', ⟨none, some Accent.acute, false, false, true⟩⟩,
  ⟨'Ό', 'ο', ⟨none, some Accent.acute, false, false, true⟩⟩,
  ⟨'Ώ', 'ω', ⟨none, some Accent.acute, false, false, true⟩⟩]

/-- The base letters of C2's coverage claim: the seven vowels and rho. -/
def claimBases : List Char := ['α', 'ε', 'η', 'ι', 'ο', 'υ', 'ω', 'ρ']

/-- A base letter and diacritic combination is covered when some
precomposed character realizing it is normalized to the bare lowercase
base letter. -/
def comboCovered (b : Char) (m : DiacriticCombo) : Prop :=
  ∃ e ∈ precomposedGreek, e.base = b ∧ e.combo = m ∧
    normalize_greek_letter e.char = String.singleton b

instance (b : Char) (m : DiacriticCombo) : Decidable (comboCovered b m) := by
  unfold comboCovered
  infer_instance

/-- C2's quantified property, as the spec states it: for every vowel
and for rho, the full cross-product of breathing, accent, diaeresis,
iota subscript and case is covered. -/
def fullCrossCoverageClaim : Prop :=
  ∀ b ∈ claimBases, ∀ m : DiacriticCombo, comboCovered b m

/-- Record 1 of the spec's end-to-end scenario. -/
def demoRecord1 : Record := ⟨"1", "ἄνθρωπος", []⟩

/-- Record 2 of the spec's end-to-end scenario. -/
def demoRecord2 : Record := ⟨"2", "ἀγάπη", []⟩

/-- Record 3 of the spec's end-to-end scenario. -/
def demoRecord3 : Record := ⟨"3", "βίος", []⟩

/-- Record 4 of the spec's end-to-end scenario (empty headword). -/
def demoRecord4 : Record := ⟨"4", "", []⟩

/-- The input sequence of the spec's end-to-end scenario. -/
def demoRecords : List Record :=
  [demoRecord1, demoRecord2, demoRecord3, demoRecord4]

/-! ### Association-list lookup facts -/

/-- A successful lookup returns a pair of the list. -/
theorem lookup_eq_some_mem {β : Type} {l : List (Char × β)} {a : Char}
    {b : β} (h : List.lookup a l = some b) : (a, b) ∈ l := by
  induction l with
  | nil => cases h
  | cons p ps ih =>
    obtain ⟨k, v⟩ := p
    by_cases hk : a = k
    · subst hk
      simp [List.lookup] at h
      subst h
      exact List.mem_cons_self _ _
    · have hb : (a == k) = false := beq_false_of_ne hk
      simp [List.lookup, hb] at h
      exact List.mem_cons_of_mem _ (ih h)

/-- Lookup misses when no key of the table equals the probe. -/
theorem lookup_eq_none_of_ne {β : Type} {l : List (Char × β)} {c : Char}
    (h : ∀ p ∈ l, p.1 ≠ c) : List.lookup c l = none := by
  induction l with
  | nil => rfl
  | cons p ps ih =>
    have hne : (c == p.1) = false :=
      beq_false_of_ne fun he => h p (List.mem_cons_self _ _) he.symm
    simp [List.lookup, hne]
    exact fun a b hab he => h (a, b) (List.mem_cons_of_mem _ hab) he.symm

/-- Characters below a bound are absent from a table whose keys all sit
at or above the bound. -/
theorem lookup_eq_none_low {β : Type} {l : List (Char × β)} {n : Nat}
    (hall : ∀ p ∈ l, n ≤ p.1.toNat) {c : Char} (hc : c.toNat < n) :
    List.lookup c l = none :=
  lookup_eq_none_of_ne fun p hp he => by
    have := hall p hp
    rw [he] at this
    omega

/-! ### Code-point order facts -/

/-- Characters with equal code points are equal. -/
theorem char_toNat_inj {a b : Char} (h : a.toNat = b.toNat) : a = b := by
  have ha := Char.ofNat_toNat a
  have hb := Char.ofNat_toNat b
  rw [← ha, ← hb, h]

/-- The lexicographic order is irreflexive. -/
theorem charListLt_self (as : List Char) : charListLt as as = false := by
  induction as with
  | nil => rfl
  | cons a as ih => simp [charListLt, ih]

/-- The lexicographic order is asymmetric. -/
theorem charListLt_asymm : ∀ (as bs : List Char),
    charListLt as bs = true → charListLt bs as = false := by
  intro as
  induction as with
  | nil =>
    intro bs h
    cases bs with
    | nil => cases h
    | cons b bs => rfl
  | cons a as ih =>
    intro bs h
    cases bs with
    | nil => cases h
    | cons b bs =>
      simp [charListLt] at h ⊢
      rcases h with h | ⟨he, hlt⟩
      · exact ⟨by omega, fun hba => by omega⟩
      · exact ⟨by omega, fun _ => ih bs hlt⟩

/-- The lexicographic order is transitive. -/
theorem charListLt_trans : ∀ (as bs cs : List Char),
    charListLt as bs = true → charListLt bs cs = true →
    charListLt as cs = true := by
  intro as
  induction as with
  | nil =>
    intro bs cs h1 h2
    cases cs with
    | nil =>
      cases bs with
      | nil => cases h1
      | cons b bs => cases h2
    | cons c cs => rfl
  | cons a as ih =>
    intro bs cs h1 h2
    cases bs with
    | nil => cases h1
    | cons b bs =>
      cases cs with
      | nil => cases h2
      | cons c cs =>
        simp [charListLt] at h1 h2 ⊢
        rcases h1 with h1 | ⟨e1, l1⟩ <;> rcases h2 with h2 | ⟨e2, l2⟩
        · exact Or.inl (by omega)
        · exact Or.inl (by omega)
        · exact Or.inl (by omega)
        · exact Or.inr ⟨by omega, ih bs cs l1 l2⟩

/-- A failed strict comparison means the reverse comparison holds or
the lists are equal. -/
theorem charListLt_total : ∀ (as bs : List Char),
    charListLt as bs = false → charListLt bs as = true ∨ as = bs := by
  intro as
  induction as with
  | nil =>
    intro bs h
    cases bs with
    | nil => exact Or.inr rfl
    | cons b bs => cases h
  | cons a as ih =>
    intro bs h
    cases bs with
    | nil => exact Or.inl rfl
    | cons b bs =>
      simp [charListLt] at h ⊢
      obtain ⟨hba, himp⟩ := h
      rcases Nat.lt_trichotomy a.toNat b.toNat with hl | he | hg
      · omega
      · rcases ih bs (himp he) with hlt | heq
        · exact Or.inl (Or.inr ⟨by omega, hlt⟩)
        · exact Or.inr ⟨char_toNat_inj he, heq⟩
      · exact Or.inl (Or.inl hg)

instance : IsTotal String fun s t => keyLe s t = true where
  total s t := by
    unfold keyLe
    cases h : charListLt t.data s.data with
    | false => exact Or.inl (by simp [h])
    | true => exact Or.inr (by simp [charListLt_asymm _ _ h])

instance : IsTrans String fun s t => keyLe s t = true where
  trans s t u h1 h2 := by
    unfold keyLe at h1 h2 ⊢
    simp only [Bool.not_eq_true', Bool.not_eq_false'] at h1 h2 ⊢
    cases hus : charListLt u.data s.data with
    | false => rfl
    | true =>
      exfalso
      rcases charListLt_total t.data s.data h1 with hst | hts
      · have hut : charListLt u.data t.data = true :=
          charListLt_trans _ _ _ hus hst
        rw [hut] at h2
        cases h2
      · rw [hts] at h2
        rw [h2] at hus
        cases hus

/-! ### Emission order -/

/-- In a list sorted by `keyLe`, a strictly smaller member sits at a
strictly smaller position. -/
theorem idxOf_lt_of_sorted :
    ∀ (l : List String), l.Sorted (fun s t => keyLe s t = true) →
    ∀ a b : String, a ∈ l → b ∈ l → charListLt a.data b.data = true →
    idxOf a l < idxOf b l := by
  intro l
  induction l with
  | nil => intro _ a b ha; cases ha
  | cons x xs ih =>
    intro hs a b ha hb hab
    have hne : a ≠ b := fun he => by
      rw [he, charListLt_self] at hab
      cases hab
    rw [List.sorted_cons] at hs
    by_cases hxa : x = a
    · subst hxa
      have hxb : x ≠ b := hne
      simp [idxOf, hxb]
    · have ha' : a ∈ xs := by
        rcases List.mem_cons.mp ha with he | h
        · exact absurd he.symm hxa
        · exact h
      by_cases hxb : x = b
      · subst hxb
        have hle := hs.1 a ha'
        unfold keyLe at hle
        simp only [Bool.not_eq_true'] at hle
        rw [hab] at hle
        cases hle
      · have hb' : b ∈ xs := by
          rcases List.mem_cons.mp hb with he | h
          · exact absurd he.symm hxb
          · exact h
        simp only [idxOf, if_neg hxa, if_neg hxb]
        exact Nat.succ_lt_succ (ih hs.2 a b ha' hb' hab)

/-- The fallback key precedes every canonical key in code-point order
(ASCII `o` sits below the Greek block). -/
theorem other_lt_canonical :
    ∀ k ∈ canonicalKeys, charListLt ("other" : String).data k.data = true := by
  decide

/-- C1 (counterexample): the spec's claim that the fallback group is
emitted last is false: on the end-to-end demo input the emitted key
sequence is `["other", "α", "β"]`, so the fallback group comes first,
not after the canonical-letter groups. -/
theorem fallback_last_claim_false : ¬ fallbackLastClaim := fun h =>
  absurd (h demoRecords "α" (by decide) (by decide) (by decide)) (by decide)

/-- C1 (amended): the emitted sequence iterates groups in sorted key
order, and the fallback group, if present, is emitted before every
canonical-letter group, because `"other"` precedes every Greek letter
in the code-point order used by the sort. -/
theorem fallback_emitted_first (rs : List Record) (k : String)
    (hk : k ∈ canonicalKeys)
    (hmem : k ∈ write_order (parse_xml_to_json rs))
    (ho : "other" ∈ write_order (parse_xml_to_json rs)) :
    idxOf "other" (write_order (parse_xml_to_json rs)) <
      idxOf k (write_order (parse_xml_to_json rs)) :=
  idxOf_lt_of_sorted _
    (List.sorted_insertionSort _ (keysOf (parse_xml_to_json rs)))
    "other" k ho hmem (other_lt_canonical k hk)

/-- C1 (witness): the amended theorem applied to the demo input. -/
theorem fallback_emitted_first_witness :
    idxOf "other" (write_order (parse_xml_to_json demoRecords)) <
      idxOf "α" (write_order (parse_xml_to_json demoRecords)) :=
  fallback_emitted_first demoRecords "α" (by decide) (by decide) (by decide)

/-! ### The key extractor -/

/-- Unfolding `get_first_letter_key` on a non-empty headword. -/
theorem key_cons (c : Char) (cs : List Char) :
    get_first_letter_key ⟨c :: cs⟩ =
      if normalize_greek_letter c ≠ "" ∧
          pySubstring (normalize_greek_letter c).data greek_alphabet.data
            = true then
        normalize_greek_letter c
      else "other" := rfl

/-- A list starting with another contains all its characters. -/
theorem pyStartsWith_subset : ∀ (as bs : List Char),
    pyStartsWith as bs = true → ∀ d ∈ as, d ∈ bs := by
  intro as
  induction as with
  | nil =>
    intro bs _ d hd
    cases hd
  | cons a as ih =>
    intro bs h d hd
    cases bs with
    | nil => cases h
    | cons b bs =>
      simp [pyStartsWith] at h
      rcases List.mem_cons.mp hd with rfl | hd'
      · rw [h.1]
        exact List.mem_cons_self _ _
      · exact List.mem_cons_of_mem _ (ih bs h.2 d hd')

/-- A substring's characters all occur in the containing string. -/
theorem pySubstring_subset : ∀ (as bs : List Char),
    pySubstring as bs = true → ∀ d ∈ as, d ∈ bs := by
  intro as bs
  induction bs with
  | nil =>
    intro h d hd
    cases as with
    | nil => cases hd
    | cons a as => cases h
  | cons b t ih =>
    intro h d hd
    simp [pySubstring] at h
    rcases h with h | h
    · exact pyStartsWith_subset _ _ h d hd
    · exact List.mem_cons_of_mem _ (ih h d hd)

/-- Every canonical-alphabet character sits in the Greek block. -/
theorem greek_alphabet_high :
    ∀ c ∈ greek_alphabet.data, 945 ≤ c.toNat := by decide

/-- Keys of the normalization table all sit in the Greek blocks. -/
theorem normalizationMap_keys_high :
    ∀ p ∈ normalizationMap, 768 ≤ p.1.toNat := by decide

/-- Splitting a membership-bounded quantifier over an append. -/
theorem forall_mem_append {α : Type} {P : α → Prop} {l1 l2 : List α}
    (h1 : ∀ p ∈ l1, P p) (h2 : ∀ p ∈ l2, P p) : ∀ p ∈ l1 ++ l2, P p :=
  fun p hp => (List.mem_append.mp hp).elim (h1 p) (h2 p)

/-- Keys of the lowercase table are ASCII uppercase letters or sit at
or above code point 128. -/
theorem pyLowerTable_keys_ascii_or_high :
    ∀ p ∈ pyLowerTable,
      (65 ≤ p.1.toNat ∧ p.1.toNat ≤ 90) ∨ 128 ≤ p.1.toNat := by
  unfold pyLowerTable
  exact (forall_mem_append (forall_mem_append (forall_mem_append (forall_mem_append (forall_mem_append (forall_mem_append (forall_mem_append (forall_mem_append (forall_mem_append (forall_mem_append (forall_mem_append (forall_mem_append (forall_mem_append (forall_mem_append (by decide) (by decide)) (by decide)) (by decide)) (by decide)) (by decide)) (by decide)) (by decide)) (by decide)) (by decide)) (by decide)) (by decide)) (by decide)) (by decide)) (by decide))

/-- Values of the lowercase table at ASCII keys stay below the Greek
block. -/
theorem pyLowerTable_ascii_values :
    ∀ p ∈ pyLowerTable, p.1.toNat ≤ 122 →
      ∀ d ∈ p.2.data, d.toNat < 945 := by
  unfold pyLowerTable
  exact (forall_mem_append (forall_mem_append (forall_mem_append (forall_mem_append (forall_mem_append (forall_mem_append (forall_mem_append (forall_mem_append (forall_mem_append (forall_mem_append (forall_mem_append (forall_mem_append (forall_mem_append (forall_mem_append (by decide) (by decide)) (by decide)) (by decide)) (by decide)) (by decide)) (by decide)) (by decide)) (by decide)) (by decide)) (by decide)) (by decide)) (by decide)) (by decide)) (by decide))

/-- Every value of the lowercase table is a single character except the
lowercase of U+0130, which is `i` followed by combining dot above. -/
theorem pyLowerTable_value_shapes :
    ∀ p ∈ pyLowerTable,
      p.2.data.length = 1 ∨ p.2.data = ['i', Char.ofNat 775] := by
  unfold pyLowerTable
  exact (forall_mem_append (forall_mem_append (forall_mem_append (forall_mem_append (forall_mem_append (forall_mem_append (forall_mem_append (forall_mem_append (forall_mem_append (forall_mem_append (forall_mem_append (forall_mem_append (forall_mem_append (forall_mem_append (by decide) (by decide)) (by decide)) (by decide)) (by decide)) (by decide)) (by decide)) (by decide)) (by decide)) (by decide)) (by decide)) (by decide)) (by decide)) (by decide)) (by decide))

/-- A character with an ASCII code point normalizes to a string all of
whose characters lie below the Greek alphabet. -/
theorem normalize_low_chars (c : Char) (hc : c.toNat ≤ 122) :
    ∀ d ∈ (normalize_greek_letter c).data, d.toNat < 945 := by
  intro d hd
  have hn : normalize_greek_letter c = pyLower c := by
    unfold normalize_greek_letter
    rw [lookup_eq_none_low normalizationMap_keys_high (by omega)]
  rw [hn] at hd
  unfold pyLower at hd
  cases hl : List.lookup c pyLowerTable with
  | none =>
    rw [hl] at hd
    simp [String.singleton] at hd
    subst hd
    omega
  | some v =>
    rw [hl] at hd
    have hm := lookup_eq_some_mem hl
    exact pyLowerTable_ascii_values _ hm hc d hd

/-- C5: the key extractor returns the fallback key for the empty
headword; on a non-empty headword it normalizes the first character
and returns the normalized letter exactly when it belongs to the
canonical alphabet, returning the fallback key otherwise; in
particular every headword starting with an ASCII digit or a Latin
letter gets the fallback key. -/
theorem key_extractor_spec :
    get_first_letter_key "" = "other" ∧
    (∀ (c : Char) (cs : List Char),
      get_first_letter_key ⟨c :: cs⟩ =
        if normalize_greek_letter c ≠ "" ∧
            pySubstring (normalize_greek_letter c).data greek_alphabet.data
              = true then
          normalize_greek_letter c
        else "other") ∧
    (∀ (c : Char) (cs : List Char),
      (48 ≤ c.toNat ∧ c.toNat ≤ 57) ∨ (65 ≤ c.toNat ∧ c.toNat ≤ 90) ∨
        (97 ≤ c.toNat ∧ c.toNat ≤ 122) →
      get_first_letter_key ⟨c :: cs⟩ = "other") := by
  refine ⟨rfl, key_cons, fun c cs hc => ?_⟩
  rw [key_cons, if_neg]
  rintro ⟨hne, hsub⟩
  have hdata : (normalize_greek_letter c).data ≠ [] := fun hd =>
    hne (String.ext (by rw [hd]))
  obtain ⟨d, ds, hds⟩ : ∃ d ds, (normalize_greek_letter c).data = d :: ds := by
    cases h : (normalize_greek_letter c).data with
    | nil => exact absurd h hdata
    | cons d ds => exact ⟨d, ds, rfl⟩
  have hd : d ∈ (normalize_greek_letter c).data := by
    rw [hds]
    exact List.mem_cons_self _ _
  have h1 := pySubstring_subset _ _ hsub d hd
  have h2 := greek_alphabet_high d h1
  have h3 := normalize_low_chars c (by omega) d hd
  omega

/-- C5 (witness): a headword starting with a digit keys to the
fallback group. -/
theorem key_extractor_spec_witness :
    get_first_letter_key ⟨['7', 'α']⟩ = "other" :=
  key_extractor_spec.2.2 '7' ['α'] (by decide)

/-- C6: the letter normalizer is a total function; on any character
absent from the normalization table it returns the generic case-fold
(`pyLower`, the complete model of Python's single-character
`str.lower`), and ASCII characters other than uppercase letters —
digits, punctuation, lowercase letters — pass through unchanged. -/
theorem normalizer_total_fallback :
    (∀ c : Char, List.lookup c normalizationMap = none →
      normalize_greek_letter c = pyLower c) ∧
    (∀ c : Char, c.toNat < 65 ∨ (90 < c.toNat ∧ c.toNat < 128) →
      normalize_greek_letter c = String.singleton c) := by
  constructor
  · intro c h
    unfold normalize_greek_letter
    rw [h]
  · intro c hc
    have h2 : List.lookup c pyLowerTable = none :=
      lookup_eq_none_of_ne fun p hp he => by
        rcases pyLowerTable_keys_ascii_or_high p hp with ⟨ha, hb⟩ | hhigh
        · have ha' : 65 ≤ c.toNat := he ▸ ha
          have hb' : c.toNat ≤ 90 := he ▸ hb
          omega
        · have hh' : 128 ≤ c.toNat := he ▸ hhigh
          omega
    unfold normalize_greek_letter
    rw [lookup_eq_none_low normalizationMap_keys_high (by omega)]
    show pyLower c = String.singleton c
    unfold pyLower
    rw [h2]
    rfl

/-- C6 (witness): an uppercase Latin-1 letter falls through the table
to the case-fold, and a punctuation character passes through
unchanged. -/
theorem normalizer_total_fallback_witness :
    normalize_greek_letter 'À' = pyLower 'À' ∧
    normalize_greek_letter '%' = "%" :=
  ⟨normalizer_total_fallback.1 'À' (by decide),
   normalizer_total_fallback.2 '%' (by decide)⟩

/-- C8: the normalizer is idempotent on the canonical alphabet: every
plain lowercase base letter is returned unchanged. -/
theorem normalizer_idempotent :
    ∀ c ∈ greek_alphabet.data,
      normalize_greek_letter c = String.singleton c := by decide

/-- C8 (witness): idempotence at the first canonical letter. -/
theorem normalizer_idempotent_witness :
    normalize_greek_letter 'α' = String.singleton 'α' :=
  normalizer_idempotent 'α' (by decide)

/-- C9: ordinary lowercase sigma and its word-final form normalize to
the same letter, and headwords beginning with either form receive the
same grouping key. -/
theorem sigma_same_key :
    normalize_greek_letter 'ς' = "σ" ∧ normalize_greek_letter 'σ' = "σ" ∧
    ∀ (cs ds : List Char),
      get_first_letter_key ⟨'ς' :: cs⟩ = get_first_letter_key ⟨'σ' :: ds⟩ := by
  refine ⟨by decide, by decide, fun cs ds => ?_⟩
  rw [key_cons, key_cons]
  decide

/-- C10: every key the extractor can produce is either the fallback key
or one of the 24 canonical single-letter keys. -/
theorem key_codomain :
    ∀ s : String, get_first_letter_key s ∈ "other" :: canonicalKeys := by
  intro s
  obtain ⟨data⟩ := s
  cases data with
  | nil => exact List.mem_cons_self _ _
  | cons c cs =>
    rw [key_cons]
    by_cases hcond : normalize_greek_letter c ≠ "" ∧
        pySubstring (normalize_greek_letter c).data greek_alphabet.data = true
    · rw [if_pos hcond]
      have hshape : (∃ d, (normalize_greek_letter c).data = [d]) ∨
          (normalize_greek_letter c).data = ['i', Char.ofNat 775] := by
        unfold normalize_greek_letter
        cases hm : List.lookup c normalizationMap with
        | some b => exact Or.inl ⟨b, rfl⟩
        | none =>
          unfold pyLower
          cases hl : List.lookup c pyLowerTable with
          | none => exact Or.inl ⟨c, rfl⟩
          | some v =>
            have hv := lookup_eq_some_mem hl
            rcases pyLowerTable_value_shapes _ hv with h1 | h2
            · cases hvd : v.data with
              | nil =>
                rw [hvd] at h1
                cases h1
              | cons d ds =>
                cases ds with
                | nil => exact Or.inl ⟨d, hvd⟩
                | cons e es =>
                  rw [hvd] at h1
                  simp at h1
            · exact Or.inr h2
      rcases hshape with ⟨d, hd⟩ | hink
      · have hdmem : d ∈ greek_alphabet.data :=
          pySubstring_subset _ _ hcond.2 d
            (by rw [hd]; exact List.mem_cons_self _ _)
        have hn : normalize_greek_letter c = String.singleton d :=
          String.ext (by rw [hd]; rfl)
        rw [hn]
        exact List.mem_cons_of_mem _ (List.mem_map_of_mem _ hdmem)
      · exfalso
        have h1 := pySubstring_subset _ _ hcond.2 'i'
          (by rw [hink]; exact List.mem_cons_self _ _)
        have h2 := greek_alphabet_high _ h1
        have h3 : ('i').toNat = 105 := rfl
        omega
    · rw [if_neg hcond]
      exact List.mem_cons_self _ _

/-! ### The grouping loop -/

/-- Appending a record touches exactly the group of its key. -/
theorem groupOf_addRecord (gs : List (String × List Record)) (k k' : String)
    (r : Record) :
    groupOf (addRecord gs k r) k' =
      groupOf gs k' ++ if k' = k then [r] else [] := by
  induction gs with
  | nil =>
    simp only [addRecord, groupOf]
    by_cases h : k = k'
    · subst h
      simp
    · simp [h, Ne.symm h]
  | cons g rest ih =>
    obtain ⟨k0, l0⟩ := g
    simp only [addRecord]
    by_cases h0 : k0 = k
    · rw [if_pos h0]
      simp only [groupOf]
      by_cases h1 : k0 = k'
      · rw [if_pos h1, if_pos h1]
        subst h1
        subst h0
        simp
      · rw [if_neg h1, if_neg h1]
        subst h0
        rw [if_neg fun hh => h1 hh.symm, List.append_nil]
    · rw [if_neg h0]
      simp only [groupOf]
      by_cases h1 : k0 = k'
      · rw [if_pos h1, if_pos h1]
        subst h1
        rw [if_neg fun hh => h0 hh, List.append_nil]
      · rw [if_neg h1, if_neg h1]
        exact ih

/-- Running the grouping loop from any accumulator appends exactly the
key's subsequence of the processed records to each group. -/
theorem groupOf_parse_aux :
    ∀ (rs : List Record) (gs : List (String × List Record)) (k : String),
      groupOf
          (rs.foldl (fun a r => addRecord a (get_first_letter_key r.orth) r)
            gs) k =
        groupOf gs k ++
          rs.filter fun r => decide (get_first_letter_key r.orth = k) := by
  intro rs
  induction rs with
  | nil =>
    intro gs k
    simp
  | cons r rs ih =>
    intro gs k
    rw [List.foldl_cons, ih, groupOf_addRecord]
    by_cases h : get_first_letter_key r.orth = k
    · subst h
      simp
    · have h' : ¬ (k = get_first_letter_key r.orth) := fun hh => h hh.symm
      simp [h, h']

/-- Each group of the partition result is the subsequence of the input
with that key, in input order. -/
theorem groupOf_parse (rs : List Record) (k : String) :
    groupOf (parse_xml_to_json rs) k =
      rs.filter fun r => decide (get_first_letter_key r.orth = k) := by
  unfold parse_xml_to_json
  rw [groupOf_parse_aux]
  rfl

/-- Appending a record adds its key at the end exactly on first use. -/
theorem keysOf_addRecord (gs : List (String × List Record)) (k : String)
    (r : Record) :
    keysOf (addRecord gs k r) =
      if k ∈ keysOf gs then keysOf gs else keysOf gs ++ [k] := by
  induction gs with
  | nil => simp [addRecord, keysOf]
  | cons g rest ih =>
    obtain ⟨k0, l0⟩ := g
    by_cases h0 : k0 = k
    · subst h0
      simp [addRecord, keysOf]
    · have h0' : ¬ (k = k0) := fun hh => h0 hh.symm
      simp only [addRecord, if_neg h0, keysOf, List.map_cons] at ih ⊢
      rw [ih]
      by_cases hm : k ∈ List.map Prod.fst rest
      · simp [hm, h0']
      · simp [hm, h0']
  
/-- Appending a record keeps the keys distinct. -/
theorem keysOf_nodup_addRecord (gs : List (String × List Record))
    (k : String) (r : Record) (h : (keysOf gs).Nodup) :
    (keysOf (addRecord gs k r)).Nodup := by
  rw [keysOf_addRecord]
  by_cases hm : k ∈ keysOf gs
  · rw [if_pos hm]
    exact h
  · rw [if_neg hm]
    rw [List.nodup_append]
    refine ⟨h, List.nodup_singleton _, ?_⟩
    intro a ha hak
    rw [List.mem_singleton] at hak
    subst hak
    exact hm ha

/-- The grouping loop keeps the keys distinct from any
distinct-keyed accumulator. -/
theorem parse_keys_nodup_aux :
    ∀ (rs : List Record) (gs : List (String × List Record)),
      (keysOf gs).Nodup →
      (keysOf
          (rs.foldl (fun a r => addRecord a (get_first_letter_key r.orth) r)
            gs)).Nodup := by
  intro rs
  induction rs with
  | nil => intro gs h; exact h
  | cons r rs ih =>
    intro gs h
    rw [List.foldl_cons]
    exact ih _ (keysOf_nodup_addRecord _ _ _ h)

/-- The partition result has distinct keys. -/
theorem parse_keys_nodup (rs : List Record) :
    (keysOf (parse_xml_to_json rs)).Nodup :=
  parse_keys_nodup_aux rs [] (by simp [keysOf])

/-- With distinct keys, a group pair of the list is retrieved by its
key. -/
theorem groupOf_eq_of_mem :
    ∀ {gs : List (String × List Record)} {k : String} {l : List Record},
      (keysOf gs).Nodup → (k, l) ∈ gs → groupOf gs k = l := by
  intro gs
  induction gs with
  | nil => intro k l _ hm; cases hm
  | cons g rest ih =>
    intro k l hn hm
    obtain ⟨k0, l0⟩ := g
    rcases List.mem_cons.mp hm with he | hr
    · rw [Prod.mk.injEq] at he
      obtain ⟨rfl, rfl⟩ := he
      simp [groupOf]
    · have hk : k ∈ keysOf rest := by
        simp only [keysOf, List.mem_map]
        exact ⟨(k, l), hr, rfl⟩
      simp only [keysOf, List.map_cons, List.nodup_cons] at hn
      have hne : k0 ≠ k := fun he => hn.1 (he ▸ hk)
      rw [groupOf, if_neg hne]
      exact ih hn.2 hr

/-- Keys absent from the key list have the empty group. -/
theorem groupOf_eq_nil_of_not_mem :
    ∀ (gs : List (String × List Record)) (k : String),
      k ∉ keysOf gs → groupOf gs k = [] := by
  intro gs
  induction gs with
  | nil => intro k _; rfl
  | cons g rest ih =>
    intro k hk
    obtain ⟨k0, l0⟩ := g
    simp only [keysOf, List.map_cons, List.mem_cons] at hk
    rw [groupOf, if_neg fun he => hk (Or.inl he.symm)]
    exact ih k fun hm => hk (Or.inr hm)

/-- Every key of the list is paired with its group. -/
theorem mem_group_pair :
    ∀ (gs : List (String × List Record)) (k : String),
      k ∈ keysOf gs → (k, groupOf gs k) ∈ gs := by
  intro gs
  induction gs with
  | nil => intro k hk; cases hk
  | cons g rest ih =>
    intro k hk
    obtain ⟨k0, l0⟩ := g
    by_cases h0 : k0 = k
    · subst h0
      rw [groupOf, if_pos rfl]
      exact List.mem_cons_self _ _
    · simp only [keysOf, List.map_cons, List.mem_cons] at hk
      rcases hk with he | hm
      · exact absurd he.symm h0
      · rw [groupOf, if_neg h0]
        exact List.mem_cons_of_mem _ (ih k hm)

/-- Appending one record grows the total count by one. -/
theorem sumCounts_addRecord (gs : List (String × List Record)) (k : String)
    (r : Record) : sumCounts (addRecord gs k r) = sumCounts gs + 1 := by
  induction gs with
  | nil => simp [addRecord, sumCounts]
  | cons g rest ih =>
    obtain ⟨k0, l0⟩ := g
    by_cases h : k0 = k
    · simp [addRecord, h, sumCounts]
      omega
    · simp only [addRecord, if_neg h, sumCounts, List.map_cons,
        List.sum_cons] at ih ⊢
      omega

/-- The grouping loop grows the total count by the number of records
processed. -/
theorem sumCounts_parse_aux :
    ∀ (rs : List Record) (gs : List (String × List Record)),
      sumCounts
          (rs.foldl (fun a r => addRecord a (get_first_letter_key r.orth) r)
            gs) =
        sumCounts gs + rs.length := by
  intro rs
  induction rs with
  | nil => intro gs; simp
  | cons r rs ih =>
    intro gs
    rw [List.foldl_cons, ih, sumCounts_addRecord]
    simp only [List.length_cons]
    omega

/-- C3: the partitioner drops and duplicates nothing: the total record
count across groups equals the input length, and every input record
lies in exactly one group of the partition result. -/
theorem grouping_complete_disjoint (rs : List Record) :
    sumCounts (parse_xml_to_json rs) = rs.length ∧
    ∀ r ∈ rs, ∃! g : String × List Record,
      g ∈ parse_xml_to_json rs ∧ r ∈ g.2 := by
  constructor
  · unfold parse_xml_to_json
    rw [sumCounts_parse_aux]
    simp [sumCounts]
  · intro r hr
    have hmemgroup :
        r ∈ groupOf (parse_xml_to_json rs) (get_first_letter_key r.orth) := by
      rw [groupOf_parse]
      exact List.mem_filter.mpr ⟨hr, by simp⟩
    have hkeys :
        get_first_letter_key r.orth ∈ keysOf (parse_xml_to_json rs) := by
      by_contra hnk
      rw [groupOf_eq_nil_of_not_mem _ _ hnk] at hmemgroup
      cases hmemgroup
    refine ⟨(get_first_letter_key r.orth,
        groupOf (parse_xml_to_json rs) (get_first_letter_key r.orth)),
      ⟨mem_group_pair _ _ hkeys, hmemgroup⟩, ?_⟩
    rintro ⟨k', l'⟩ ⟨hmem', hr'⟩
    have hl' : groupOf (parse_xml_to_json rs) k' = l' :=
      groupOf_eq_of_mem (parse_keys_nodup rs) hmem'
    have hk' : get_first_letter_key r.orth = k' := by
      have hf : r ∈ rs.filter fun x =>
          decide (get_first_letter_key x.orth = k') := by
        rw [← groupOf_parse, hl']
        exact hr'
      have := (List.mem_filter.mp hf).2
      simpa using this
    rw [Prod.mk.injEq]
    exact ⟨hk'.symm, by rw [← hl', hk']⟩

/-- C3 (witness): the completeness theorem applied to the demo input
and its first record. -/
theorem grouping_complete_disjoint_witness :
    sumCounts (parse_xml_to_json demoRecords) = demoRecords.length ∧
    ∃! g : String × List Record,
      g ∈ parse_xml_to_json demoRecords ∧ demoRecord1 ∈ g.2 :=
  ⟨(grouping_complete_disjoint demoRecords).1,
   (grouping_complete_disjoint demoRecords).2 demoRecord1 (by decide)⟩

/-- C4: every group of the partition result equals the subsequence of
the input whose key is that group's key, so records keep their input
order within each group. -/
theorem order_preserved (rs : List Record) (k : String) (l : List Record)
    (h : (k, l) ∈ parse_xml_to_json rs) :
    l = rs.filter fun r => decide (get_first_letter_key r.orth = k) := by
  rw [← groupOf_parse, groupOf_eq_of_mem (parse_keys_nodup rs) h]

/-- C4 (witness): the alpha group of the demo input is the input's
alpha subsequence. -/
theorem order_preserved_witness :
    [demoRecord1, demoRecord2] =
      demoRecords.filter fun r =>
        decide (get_first_letter_key r.orth = "α") :=
  order_preserved demoRecords "α" [demoRecord1, demoRecord2] (by decide)

/-- C7: the end-to-end scenario: the four demo records partition into
the alpha group (records 1 and 2 in order), the beta group (record 3)
and the fallback group (record 4). -/
theorem end_to_end_scenario :
    parse_xml_to_json demoRecords =
      [("α", [demoRecord1, demoRecord2]), ("β", [demoRecord3]),
        ("other", [demoRecord4])] := by decide

/-! ### Coverage of the normalization table -/

/-- Every precomposed character either normalizes to its own base
letter or is one of the oxia duplicates. -/
theorem self_normalizing_or_oxia :
    ∀ e ∈ precomposedGreek,
      normalize_greek_letter e.char = String.singleton e.base ∨
        e ∈ oxiaVariants := by decide

/-- Each oxia duplicate's combination is covered through its tonos
twin. -/
theorem oxia_covered : ∀ e ∈ oxiaVariants, comboCovered e.base e.combo := by
  decide

/-- Every diacritic combination realized by some precomposed character
is covered: some realizing character normalizes to the bare base. -/
theorem precomposed_covered :
    ∀ e ∈ precomposedGreek, comboCovered e.base e.combo := by
  intro e he
  rcases self_normalizing_or_oxia e he with h | h
  · exact ⟨e, he, rfl, rfl, h⟩
  · exact oxia_covered e h

/-- C2 (counterexample): the full cross-product is not covered: no
character realizes a bare circumflexed epsilon (epsilon never carries a
circumflex), so that combination of the cross-product has no entry. -/
theorem full_cross_coverage_false : ¬ fullCrossCoverageClaim := fun h =>
  absurd
    (h 'ε' (by decide) ⟨none, some Accent.circumflex, false, false, false⟩)
    (by decide)

/-- C2 (amended): restricted to the combinations that exist as
precomposed Unicode characters, the cross-product is covered: for every
base letter (vowel or rho) and every diacritic combination realized by
some precomposed character, a realizing character normalizes to the
bare lowercase base letter. -/
theorem realizable_cross_product_covered (b : Char) (m : DiacriticCombo)
    (h : ∃ e ∈ precomposedGreek, e.base = b ∧ e.combo = m) :
    comboCovered b m := by
  obtain ⟨e, he, hb, hm⟩ := h
  subst hb
  subst hm
  exact precomposed_covered e he

/-- C2 (witness): lowercase alpha with an acute accent is realized
(among others by the oxia code point) and covered. -/
theorem realizable_cross_product_covered_witness :
    comboCovered 'α' ⟨none, some Accent.acute, false, false, false⟩ :=
  realizable_cross_product_covered 'α'
    ⟨none, some Accent.acute, false, false, false⟩
    ⟨⟨Char.ofNat 8049, 'α', ⟨none, some Accent.acute, false, false, false⟩⟩,
      by decide, rfl, rfl⟩

end DodsonSplit
